import Mathlib

/-!
Verification development for the BOFHT/ratesystem scoring engine.

This file gives a shallow embedding, in Lean 4, of the analysis and scoring
pipeline of the repository (backend/scoring.py, backend/schemas.py and the
backend/ml_models package) and proves properties of it.

Modelling conventions:
* Python floats are modelled by `ℚ`; every constant appearing in the source
  (0.25, 0.333, 206.835, ...) is an exact decimal, so no precision is lost.
  `Float.round`-style behaviour of Python's `round(x, 2)` is modelled by
  `pyRound2` (round half to even at two decimals, which is what CPython does
  on the values arising in this development).
* Python's dynamically typed dicts are modelled by association lists of
  `DVal` (a small dynamic-value type).  Assignment `d[k] = v` is `dictSet`
  (replace in place or append, like a Python dict).  `d.get(k, default)`
  is modelled by the `dGet*` helpers; on a present key holding a value of
  the wrong shape they return the default, which agrees with the source on
  every dict this development actually constructs (all well-typed).
* External, library-backed computations (sklearn TF-IDF cohesion, the
  trained classifier, NLTK tokenization inside the non-empty NLP branch,
  numpy's float sqrt inside np.std) are modelled as function parameters;
  every theorem quantifies over them, every concrete witness instantiates
  them.
* Wall-clock timestamps written into detail traces are modelled by a fixed
  placeholder string.
-/

/-! ### Dynamic values (Python dict model) -/

/-- A dynamic (Python-like) value: number, string, boolean, list or dict. -/
inductive DVal where
  | num (q : ℚ)
  | str (s : String)
  | bool (b : Bool)
  | list (l : List DVal)
  | dict (d : List (String × DVal))

/-! ### Association-list lookup (Python dict read) -/

/-- First-match lookup in an association list (Python dict read; dicts built
through `dictSet` have unique keys, so first match is the match). -/
def sLookup {α : Type} : List (String × α) → String → Option α
  | [], _ => none
  | (k, v) :: rest, key => if k = key then some v else sLookup rest key

theorem sLookup_isSome_of_mem {α : Type} {l : List (String × α)} {k : String} {v : α}
    (h : (k, v) ∈ l) : (sLookup l k).isSome := by
  induction l with
  | nil => cases h
  | cons kv rest ih =>
    obtain ⟨k2, v2⟩ := kv
    rcases List.mem_cons.1 h with h2 | h2
    · have hk : k2 = k := by
        have := congrArg Prod.fst h2
        simpa using this.symm
      simp [sLookup, hk]
    · by_cases he : k2 = k
      · simp [sLookup, he]
      · simpa [sLookup, he] using ih h2

theorem sLookup_mem {α : Type} {l : List (String × α)} {k : String} {v : α}
    (h : sLookup l k = some v) : (k, v) ∈ l := by
  induction l with
  | nil => simp [sLookup] at h
  | cons kv rest ih =>
    obtain ⟨k2, v2⟩ := kv
    by_cases he : k2 = k
    · simp [sLookup, he] at h
      exact List.mem_cons.2 (Or.inl (by simp [he, h]))
    · simp [sLookup, he] at h
      exact List.mem_cons.2 (Or.inr (ih h))

/-- A Python dict: association list with at most one entry per key
(maintained by always building dicts through `dictSet`). -/
abbrev Dict := List (String × DVal)

/-- Python `d[k] = v`: replace the value in place if the key exists,
else append (insertion order preserved, like CPython dicts). -/
def dictSet (d : Dict) (k : String) (v : DVal) : Dict :=
  if (sLookup d k).isSome then
    d.map (fun kv => if kv.1 = k then (k, v) else kv)
  else
    d ++ [(k, v)]

/-- The key list of a dict. -/
def dictKeys (d : Dict) : List String := d.map Prod.fst

/-- Python `d.get(k, default)` for an expected numeric value. -/
def dGetNumD (d : Dict) (k : String) (q : ℚ) : ℚ :=
  match sLookup d k with
  | some (.num v) => v
  | _ => q

/-- Python `d.get(k, default)` for an expected string value. -/
def dGetStrD (d : Dict) (k : String) (s : String) : String :=
  match sLookup d k with
  | some (.str v) => v
  | _ => s

/-- Python `d.get(k, [])` for an expected list value. -/
def dGetList (d : Dict) (k : String) : List DVal :=
  match sLookup d k with
  | some (.list v) => v
  | _ => []

/-- Python `d.get(k, {})` for an expected dict value. -/
def dGetDict (d : Dict) (k : String) : Dict :=
  match sLookup d k with
  | some (.dict v) => v
  | _ => []

/-- The numeric entries of a dict (a dict whose values are all numbers is
recovered exactly). -/
def numEntries (d : Dict) : List (String × ℚ) :=
  d.filterMap (fun kv => match kv.2 with | .num q => some (kv.1, q) | _ => none)

/-- Inject a purely numeric feature map into a dynamic dict. -/
def numDict (l : List (String × ℚ)) : Dict := l.map (fun kv => (kv.1, .num kv.2))

/-! ### Rational helpers -/

/-- Round a rational to an integer, ties to even (CPython `round`). -/
def roundHalfEven (x : ℚ) : ℤ :=
  if x - ⌊x⌋ < 1/2 then ⌊x⌋
  else if 1/2 < x - ⌊x⌋ then ⌊x⌋ + 1
  else if ⌊x⌋ % 2 = 0 then ⌊x⌋ else ⌊x⌋ + 1

/-- Python `round(x, 2)`. -/
def pyRound2 (x : ℚ) : ℚ := (roundHalfEven (100 * x) : ℚ) / 100

/-- `min(max(score, 0), 100)`, the clamp used for every dimension score. -/
def clampScore (x : ℚ) : ℚ := min (max x 0) 100

/-- Arithmetic mean of a list of rationals (`np.mean`); 0 on the empty list
(the source never takes a mean of an empty list on a path we embed). -/
def qMean (l : List ℚ) : ℚ := if l = [] then 0 else l.sum / l.length

theorem roundHalfEven_nonneg {x : ℚ} (hx : 0 ≤ x) : 0 ≤ roundHalfEven x := by
  have h0 : (0 : ℤ) ≤ ⌊x⌋ := Int.le_floor.2 (by exact_mod_cast hx)
  unfold roundHalfEven
  split_ifs <;> omega

theorem roundHalfEven_le {x : ℚ} {N : ℤ} (hx : x ≤ N) : roundHalfEven x ≤ N := by
  have hfl : ⌊x⌋ ≤ N := by
    calc ⌊x⌋ ≤ ⌊(N : ℚ)⌋ := Int.floor_le_floor hx
    _ = N := Int.floor_intCast N
  have hstrict : (1/2 : ℚ) ≤ x - ⌊x⌋ → ⌊x⌋ + 1 ≤ N := by
    intro hf
    rcases lt_or_eq_of_le hfl with h | h
    · omega
    · exfalso
      have hxle : x ≤ (⌊x⌋ : ℚ) := by rw [h]; exact_mod_cast hx
      linarith
  unfold roundHalfEven
  split_ifs with h1 h2 h3
  · exact hfl
  · exact hstrict (le_of_lt h2)
  · exact hfl
  · exact hstrict (le_of_not_lt h1)

theorem pyRound2_nonneg {x : ℚ} (hx : 0 ≤ x) : 0 ≤ pyRound2 x := by
  unfold pyRound2
  have h : (0:ℤ) ≤ roundHalfEven (100 * x) := @roundHalfEven_nonneg (100 * x) (by linarith)
  have h2 : (0:ℚ) ≤ (roundHalfEven (100 * x) : ℚ) := by exact_mod_cast h
  exact div_nonneg h2 (by norm_num)

theorem pyRound2_le_hundred {x : ℚ} (hx : x ≤ 100) : pyRound2 x ≤ 100 := by
  unfold pyRound2
  have h : roundHalfEven (100 * x) ≤ (10000 : ℤ) :=
    roundHalfEven_le (by push_cast; linarith)
  have h2 : (roundHalfEven (100 * x) : ℚ) ≤ 10000 := by exact_mod_cast h
  linarith

theorem clampScore_nonneg (x : ℚ) : 0 ≤ clampScore x := by
  unfold clampScore
  rcases le_total (max x 0) 100 with h | h
  · simp [min_eq_left h]
  · simp [min_eq_right h]

theorem clampScore_le (x : ℚ) : clampScore x ≤ 100 := min_le_right _ _

/-! ### String helpers (Python `str` operations) -/

/-- A regex `\w` word character.  ASCII alphanumerics and underscore; any
non-ASCII codepoint is treated as a word character (approximating Python's
Unicode `\w`; the lexicon and the claims are ASCII). -/
def isWordChar (c : Char) : Bool := c.isAlphanum || c = '_' || c.val ≥ 128

/-- Split a character list into maximal runs satisfying `p`
(the tokens matched by `\w+`-style regexes, in order). -/
def charRuns (p : Char → Bool) : List Char → List (List Char)
  | [] => []
  | c :: cs =>
    let rest := charRuns p cs
    if p c then
      match cs with
      | c2 :: _ => if p c2 then
          match rest with
          | r :: rs => (c :: r) :: rs
          | [] => [[c]]
        else [c] :: rest
      | [] => [[c]]
    else rest

/-- `re.findall(r'\b\w+\b', s)`: the maximal word-character runs of `s`. -/
def wordTokens (s : String) : List String :=
  (charRuns isWordChar s.toList).map (fun cs => String.mk cs)

/-- Python `s.split()` (split on whitespace runs, dropping empties). -/
def pySplitWs (s : String) : List String :=
  (charRuns (fun c => !c.isWhitespace) s.toList).map (fun cs => String.mk cs)

/-- The number of fields produced by `re.split(r'[.!?]+', s)`:
one more than the number of maximal runs of `.`, `!`, `?` in `s`. -/
def sentenceSplitCount (s : String) : ℚ :=
  ((charRuns (fun c => c = '.' || c = '!' || c = '?') s.toList).length : ℚ) + 1

/-- Python `needle in hay` (substring containment). -/
def strContains (hay needle : String) : Bool :=
  decide (needle.toList <:+: hay.toList)

/-- Python `s.lower()` (character-wise; `String.toLower` itself does not
reduce in the kernel, so the character-list form is used). -/
def pyLower (s : String) : String := String.mk (s.toList.map Char.toLower)

/-- Python `s.strip()`. -/
def pyStrip (s : String) : String :=
  String.mk (((s.toList.dropWhile Char.isWhitespace).reverse.dropWhile Char.isWhitespace).reverse)

/-- Code-point lexicographic order on character lists (Python string
comparison). -/
def charListLe : List Char → List Char → Bool
  | [], _ => true
  | _ :: _, [] => false
  | a :: as, b :: bs =>
    if a.toNat < b.toNat then true
    else if b.toNat < a.toNat then false
    else charListLe as bs

/-- Python `a <= b` on strings (code-point lexicographic). -/
def pyStrLe (a b : String) : Bool := charListLe a.toList b.toList

/-- Python `" ".join l`. -/
def spaceJoin : List String → String
  | [] => ""
  | [s] => s
  | s :: rest => s ++ " " ++ spaceJoin rest

/-- Number of distinct elements (`len(set(l))`). -/
def distinctCount (l : List String) : ℚ := ((l.dedup).length : ℚ)

/-! ### The detection order relation -/

theorem charListLe_total : ∀ as bs : List Char, charListLe as bs = true ∨ charListLe bs as = true := by
  intro as
  induction as with
  | nil => intro bs; left; rfl
  | cons a as ih =>
    intro bs
    cases bs with
    | nil => right; rfl
    | cons b bs =>
      unfold charListLe
      rcases Nat.lt_trichotomy a.toNat b.toNat with h | h | h
      · left; rw [if_pos h]
      · rw [if_neg (by omega), if_neg (by omega), if_neg (by omega), if_neg (by omega)]
        exact ih bs
      · right; rw [if_pos h]

theorem charListLe_trans : ∀ as bs cs : List Char,
    charListLe as bs = true → charListLe bs cs = true → charListLe as cs = true := by
  intro as
  induction as with
  | nil => intro bs cs _ _; rfl
  | cons a as ih =>
    intro bs cs hab hbc
    cases bs with
    | nil => simp [charListLe] at hab
    | cons b bs =>
      cases cs with
      | nil => simp [charListLe] at hbc
      | cons c cs =>
        unfold charListLe at hab hbc ⊢
        rcases Nat.lt_trichotomy a.toNat b.toNat with h1 | h1 | h1
        · rcases Nat.lt_trichotomy b.toNat c.toNat with h2 | h2 | h2
          · rw [if_pos (by omega)]
          · rw [if_pos (by omega)]
          · rw [if_neg (by omega), if_pos h2] at hbc
            cases hbc
        · rcases Nat.lt_trichotomy b.toNat c.toNat with h2 | h2 | h2
          · rw [if_pos (by omega)]
          · rw [if_neg (by omega), if_neg (by omega)]
            rw [if_neg (by omega), if_neg (by omega)] at hab
            rw [if_neg (by omega), if_neg (by omega)] at hbc
            exact ih bs cs hab hbc
          · rw [if_neg (by omega), if_pos h2] at hbc
            cases hbc
        · rw [if_neg (by omega), if_pos h1] at hab
          cases hab

theorem charListLe_antisymm : ∀ as bs : List Char,
    charListLe as bs = true → charListLe bs as = true → as = bs := by
  intro as
  induction as with
  | nil =>
    intro bs _ hba
    cases bs with
    | nil => rfl
    | cons b bs => simp [charListLe] at hba
  | cons a as ih =>
    intro bs hab hba
    cases bs with
    | nil => simp [charListLe] at hab
    | cons b bs =>
      unfold charListLe at hab hba
      rcases Nat.lt_trichotomy a.toNat b.toNat with h1 | h1 | h1
      · rw [if_neg (by omega), if_pos h1] at hba
        cases hba
      · rw [if_neg (by omega), if_neg (by omega)] at hab
        rw [if_neg (by omega), if_neg (by omega)] at hba
        have hc : a = b := Char.ext (UInt32.toNat.inj h1)
        rw [hc, ih bs hab hba]
      · rw [if_neg (by omega), if_pos h1] at hab
        cases hab

/-- The relation Python `sorted` uses on strings. -/
def strLeRel (a b : String) : Prop := pyStrLe a b = true

instance : DecidableRel strLeRel := fun a b => by
  unfold strLeRel
  infer_instance

instance : IsTotal String strLeRel :=
  ⟨fun a b => charListLe_total a.toList b.toList⟩

instance : IsTrans String strLeRel :=
  ⟨fun a b c => charListLe_trans a.toList b.toList c.toList⟩

theorem string_toList_injective {a b : String} (h : a.toList = b.toList) : a = b := by
  cases a; cases b
  simp only [String.toList] at h
  simp [h]

instance : IsAntisymm String strLeRel :=
  ⟨fun a b hab hba => string_toList_injective (charListLe_antisymm a.toList b.toList hab hba)⟩

/-- Python `sorted` on strings (codepoint-lexicographic ascending). -/
def pySorted (l : List String) : List String := l.insertionSort strLeRel

/-! ### The technology lexicon

The analyzers read their configuration from the module `config`.  The
`config.py` shipped under the repository root lacks the keys
(`MODEL_CACHE_DIR`, `TECH_STACKS`, ...) that the repository's own setup
test (`simple_test_no_emoji.py`) requires `config.py` to contain, so the
intended configuration module is missing from the sources.
Modelled from the spec: "Lexicon built from a static category→[names]
table" — we take the `TECH_STACKS` table that does exist in the repository
(`backend/config_cloud.py`) as that static table, and assume the settings
object is complete enough for the analyzers to construct (this is the
intended deployment; under the literally shipped `config.py` every
constructor would fail on the missing `MODEL_CACHE_DIR` and `analyze_project`
would always return its error fallback). -/

/-- `settings.TECH_STACKS` (backend/config_cloud.py lines 90-97). -/
def techStacksTable : List (String × List String) :=
  [ ("web", ["Python", "JavaScript", "TypeScript", "Java", "Go", "Rust"]),
    ("frontend", ["React", "Vue", "Angular", "Svelte", "Next.js"]),
    ("backend", ["Django", "Flask", "FastAPI", "Spring", "Express", "NestJS"]),
    ("database", ["PostgreSQL", "MySQL", "MongoDB", "Redis", "SQLite"]),
    ("cloud", ["AWS", "Azure", "GCP", "阿里云", "腾讯云"]),
    ("devops", ["Docker", "Kubernetes", "GitHub Actions", "Jenkins", "GitLab CI"]) ]

/-- The hand-authored common-alias map of
`TechStackAnalyzer._get_tech_aliases`. -/
def commonAliases : List (String × List String) :=
  [ ("javascript", ["js", "ecmascript"]),
    ("python", ["py"]),
    ("c++", ["cpp"]),
    ("c#", ["csharp"]),
    ("go", ["golang"]),
    ("react", ["reactjs"]),
    ("vue", ["vuejs"]),
    ("angular", ["angularjs"]),
    ("postgresql", ["postgres"]),
    ("elasticsearch", ["es"]),
    ("google_cloud", ["gcp"]),
    ("kubernetes", ["k8s"]) ]

/-- `TechStackAnalyzer._get_tech_aliases`. -/
def getTechAliases (techName : String) : List String :=
  (sLookup commonAliases (pyLower techName)).getD []

/-- One entry of `TechStackAnalyzer.tech_definitions`. -/
structure TechInfo where
  name : String
  category : String
  aliases : List String

/-- `TechStackAnalyzer.tech_definitions` as built by
`_load_tech_definitions` from the TECH_STACKS table (keys lowercased,
insertion order preserved; the database branch is commented out in the
source, so it contributes nothing). -/
def techDefinitions : List (String × TechInfo) :=
  techStacksTable.flatMap fun ct =>
    ct.2.map fun tech =>
      (pyLower tech, { name := tech, category := ct.1, aliases := getTechAliases tech })

/-- `TechStackAnalyzer.tech_categories` (tech name → category). -/
def techCategories : List (String × String) :=
  techDefinitions.map fun kv => (kv.1, kv.2.category)

/-- `TechStackAnalyzer.popularity_scores`: never populated (the database
load is commented out), so every lookup falls back to the 0.5 default. -/
def popularityScores : List (String × ℚ) := []

/-- Insert into a string-keyed association list, replacing in place when the
key is present (Python dict assignment). -/
def aDictSet {α : Type} (d : List (String × α)) (k : String) (v : α) : List (String × α) :=
  if (sLookup d k).isSome then
    d.map (fun kv => if kv.1 = k then (k, v) else kv)
  else
    d ++ [(k, v)]

/-- The acronym added by `_build_alias_mapping` for multi-word names. -/
def acronymOf (name : String) : Option String :=
  if strContains name " " then
    let words := pySplitWs name
    if 1 < words.length then
      some (String.mk (words.map fun w => (w.toList.headD 'x').toLower))
    else none
  else none

/-- `TechStackAnalyzer._build_alias_mapping`: the alias → canonical-name
table (later assignments overwrite earlier ones, as in a Python dict). -/
def techAliases : List (String × String) :=
  techDefinitions.foldl
    (fun acc kv =>
      let acc1 := aDictSet acc kv.1 kv.1
      let acc2 := kv.2.aliases.foldl (fun a al => aDictSet a (pyLower al) kv.1) acc1
      match acronymOf kv.2.name with
      | some ac => aDictSet acc2 ac kv.1
      | none => acc2)
    []

/-- `TechStackAnalyzer._is_outdated_tech`: membership in the static
deny-list. -/
def isOutdatedTech (techName : String) : Bool :=
  techName ∈ [ "jquery", "backbone", "ember", "knockout",
               "php5", "python2", "ruby1.8",
               "mysql4", "mongodb2",
               "flash", "silverlight" ]

/-- `TechStackAnalyzer._clean_tech_name`: drop digits and dots, drop
remaining non-word non-space characters, normalize interior whitespace,
strip. -/
def cleanTechName (techName : String) : String :=
  let noVersion := String.mk (techName.toList.filter fun c => !(c.isDigit || c = '.'))
  let noSpecial := String.mk (noVersion.toList.filter fun c => isWordChar c || c.isWhitespace)
  pyStrip (spaceJoin (pySplitWs noSpecial))

/-- Stage 1 of `_normalize_tech_name`: exact match against the lexicon. -/
def normStage1 (tl : String) : Option String :=
  if (sLookup techDefinitions tl).isSome then some tl else none

/-- Stage 2: alias-table lookup. -/
def normStage2 (tl : String) : Option String := sLookup techAliases tl

/-- Stage 3: strip digits/punctuation and retry the exact match (guarded by
the cleaned name being non-empty, as in the source). -/
def normStage3 (tl : String) : Option String :=
  let clean := cleanTechName tl
  if clean ≠ "" && (sLookup techDefinitions clean).isSome then some clean else none

/-- Stage 4: substring containment (either direction) against the lexicon
keys in insertion order, first match wins. -/
def normStage4 (tl : String) : Option String :=
  (techDefinitions.find? fun kv => strContains tl kv.1 || strContains kv.1 tl).map
    fun kv => kv.1

/-- `TechStackAnalyzer._normalize_tech_name`: the full resolution chain.
The `if not tech_name` guard makes the empty string return `None` before
any stage is tried. -/
def normalizeTechName (techName : String) : Option String :=
  if techName = "" then none
  else
    let tl := pyLower (pyStrip techName)
    if (sLookup techDefinitions tl).isSome then some tl
    else match sLookup techAliases tl with
      | some canonical => some canonical
      | none =>
        let clean := cleanTechName tl
        if clean ≠ "" && (sLookup techDefinitions clean).isSome then some clean
        else normStage4 tl

/-- The token stream scanned by `_extract_from_text`: at each position the
single word, then (when a successor exists) the two-word window. -/
def slidingTokens : List String → List String
  | [] => []
  | [w] => [w]
  | w1 :: w2 :: rest => w1 :: (w1 ++ " " ++ w2) :: slidingTokens (w2 :: rest)

/-- `TechStackAnalyzer._extract_from_text`: normalize every single- and
two-word window of the lowercased text; empty text yields nothing. -/
def extractFromText (text : String) : List String :=
  if text = "" then []
  else (slidingTokens (wordTokens (pyLower text))).filterMap normalizeTechName

/-- A project record (the `project_data` dict). -/
structure Project where
  name : String
  description : String
  category : Option String
  tech_stack : List String
  metadata : List (String × DVal)

/-- The string metadata values of a project (non-string values are skipped
by every scanner in the source). -/
def stringMetaValues (p : Project) : List String :=
  p.metadata.filterMap fun kv => match kv.2 with | .str s => some s | _ => none

/-- `TechStackAnalyzer._detect_technologies`: explicit tech_stack entries,
then description, then name, then string metadata values, all normalized;
deduplicated and canonically sorted. -/
def detectTechnologies (p : Project) : List String :=
  let d0 := p.tech_stack.filterMap normalizeTechName
  let d1 := if p.description ≠ "" then extractFromText (pyLower p.description) else []
  let d2 := if p.name ≠ "" then extractFromText (pyLower p.name) else []
  let d3 := (stringMetaValues p).flatMap fun s => extractFromText (pyLower s)
  pySorted (d0 ++ d1 ++ d2 ++ d3).dedup

/-! ### Tech-stack analysis (`TechStackAnalyzer`, continued) -/

/-- `collections.Counter` rendered as a dict (first-encounter key order). -/
def counterDict (l : List String) : Dict :=
  (l.foldl (fun acc x => if x ∈ acc then acc else acc ++ [x]) []).map
    fun c => (c, DVal.num (l.count c))

/-- `TechStackAnalyzer._calculate_cohesion`: 1.0 for at most one tech,
otherwise the TF-IDF mean pairwise cosine similarity, an external sklearn
computation modelled by the parameter `cohF`. -/
def calcCohesion (cohF : List String → ℚ) (detected : List String) : ℚ :=
  if detected.length ≤ 1 then 1 else cohF detected

/-- `TechStackAnalyzer._analyze_tech_features`. -/
def analyzeTechFeatures (cohF : List String → ℚ) (detected : List String) : Dict :=
  if detected = [] then
    [("diversity", .num 0), ("maturity", .num 0),
     ("complexity", .num 0), ("cohesion", .num 0)]
  else
    let categories := detected.map fun t => (sLookup techCategories t).getD "unknown"
    let diversity : ℚ := distinctCount categories / max (techCategories.length : ℚ) 1
    let maturityScores := detected.map fun t => (sLookup popularityScores t).getD (1/2)
    let maturity := if maturityScores = [] then 1/2 else qMean maturityScores
    let complexity : ℚ := min ((detected.length : ℚ) / 10) 1
    let cohesion := calcCohesion cohF detected
    [("diversity", .num diversity), ("maturity", .num maturity),
     ("complexity", .num complexity), ("cohesion", .num cohesion),
     ("category_distribution", .dict (counterDict categories))]

/-- The popularity key a tech-detail dict is sorted on. -/
def popularityOf (d : DVal) : ℚ :=
  match d with
  | .dict dd => dGetNumD dd "popularity_score" 0
  | _ => 0

/-- `TechStackAnalyzer._get_tech_details` (stable sort by popularity,
descending; `popularity_scores` is never populated so all keys are 0.5). -/
def getTechDetails (detected : List String) : List DVal :=
  let details := detected.map fun tech =>
    let info := sLookup techDefinitions tech
    DVal.dict
      [("name", .str (match info with | some i => i.name | none => tech)),
       ("normalized_name", .str tech),
       ("category", .str ((sLookup techCategories tech).getD "unknown")),
       ("popularity_score", .num ((sLookup popularityScores tech).getD (1/2))),
       ("aliases", .list ((match info with | some i => i.aliases | none => []).map .str)),
       ("is_outdated", .bool (isOutdatedTech tech))]
  details.mergeSort fun a b => popularityOf b ≤ popularityOf a

/-- `TechStackAnalyzer._calculate_confidence`. -/
def calcConfidence (detected : List String) (p : Project) : ℚ :=
  let c1 : ℚ := if p.tech_stack ≠ [] then 2/5 else 0
  let c2 := if 0 < detected.length then c1 + min ((detected.length : ℚ) * (1/10)) (3/10) else c1
  let c3 := if p.description ≠ "" && 100 < p.description.length then c2 + 1/5 else c2
  let normalized := (detected.filter fun t => (sLookup techDefinitions t).isSome).length
  let c4 := if detected ≠ [] then c3 + ((normalized : ℚ) / detected.length) * (1/10) else c3
  min c4 1

/-- `TechStackAnalyzer._categorize_technologies` (category → techs, default
category "other"). -/
def categorizeTechnologies (detected : List String) : List (String × List String) :=
  detected.foldl
    (fun acc tech =>
      let cat := (sLookup techCategories tech).getD "other"
      match sLookup acc cat with
      | some l => aDictSet acc cat (l ++ [tech])
      | none => acc ++ [(cat, [tech])])
    []

/-- `TechStackAnalyzer._generate_tech_recommendations`. -/
def generateTechRecommendations (detected : List String) (analysis : Dict) : List String :=
  let categories := categorizeTechnologies detected
  let recs1 : List String :=
    if (sLookup categories "language").isNone then ["建议指定主要编程语言（如Python、JavaScript等）"] else []
  let recs2 := if (sLookup categories "framework").isNone then recs1 ++ ["建议使用合适的框架以提高开发效率"] else recs1
  let recs3 := if (sLookup categories "database").isNone then recs2 ++ ["建议选择合适的数据库系统"] else recs2
  let diversity := dGetNumD analysis "diversity" 0
  let recs4 :=
    if diversity < 3/10 then recs3 ++ ["技术栈过于单一，考虑引入互补技术"]
    else if 4/5 < diversity then recs3 ++ ["技术栈过于复杂，考虑简化架构"]
    else recs3
  let outdated := detected.filter fun t => isOutdatedTech t
  let recs5 :=
    if outdated ≠ [] then
      recs4 ++ ["发现过时技术: " ++ String.intercalate ", " outdated ++ "，建议升级或替换"]
    else recs4
  let cohesion := dGetNumD analysis "cohesion" (1/2)
  let recs6 := if cohesion < 3/10 then recs5 ++ ["技术栈内聚性较低，考虑选择更兼容的技术组合"] else recs5
  let recs7 :=
    if recs6.length < 3 then
      recs6 ++ (["考虑添加自动化测试框架", "建议实施CI/CD流程",
                 "考虑添加监控和日志系统", "建议使用容器化技术（如Docker）"].take (3 - recs6.length))
    else recs6
  recs7.take 5

/-- `TechStackAnalyzer.analyze_tech_stack` (non-exception path): the result
dict, with exactly the six keys built at source lines 310-317. -/
def analyzeTechStack (cohF : List String → ℚ) (p : Project) : Dict :=
  let detected := detectTechnologies p
  let analysis := analyzeTechFeatures cohF detected
  [("detected_tech", .list (detected.map .str)),
   ("tech_details", .list (getTechDetails detected)),
   ("analysis", .dict analysis),
   ("confidence", .num (calcConfidence detected p)),
   ("recommendations", .list ((generateTechRecommendations detected analysis).map .str)),
   ("tech_categories", .dict ((categorizeTechnologies detected).map fun kv => (kv.1, DVal.list (kv.2.map .str))))]

/-! ### NLP analyzer (`NLPProcessor`) -/

/-- `NLPProcessor._empty_analysis_result`. -/
def emptyAnalysisResult : Dict :=
  [("basic", .dict [("word_count", .num 0), ("sentence_count", .num 0)]),
   ("keywords", .dict [("categories", .dict [])]),
   ("sentiment", .dict [("score", .num 0), ("label", .str "neutral")]),
   ("entities", .dict [("count", .num 0), ("list", .list [])]),
   ("topics", .dict [("count", .num 0), ("list", .list [])]),
   ("readability", .dict [("score", .num 0), ("level", .str "unknown")]),
   ("summary", .str ""),
   ("metadata", .dict [("text_length", .num 0), ("processing_time", .str "instant"),
                       ("model_version", .str "1.0.0")])]

/-- `NLPProcessor.analyze_text`: empty or whitespace-only text yields the
empty analysis result; otherwise the NLTK-backed analysis of the stripped
text runs (modelled by the parameter `nlpFull`). -/
def analyzeText (nlpFull : String → Dict) (text : String) : Dict :=
  if text = "" then emptyAnalysisResult
  else if pyStrip text = "" then emptyAnalysisResult
  else nlpFull (pyStrip text)

/-- `NLPProcessor._generate_summary`, as a function of the NLTK sentence
list.  Python's `l[-(k):]` slice returns the whole list when `k = 0`. -/
def lastSlice (l : List String) (k : Nat) : List String :=
  if k = 0 then l else l.drop (l.length - k)

/-- `NLPProcessor._generate_summary`: at most `maxSentences` (3 at the call
site) sentences joined whole; longer texts keep the first
`maxSentences/2 + 1` and the last `maxSentences/2` sentences. -/
def generateSummary (sentences : List String) (maxSentences : Nat) : String :=
  if sentences = [] then ""
  else if sentences.length ≤ maxSentences then spaceJoin sentences
  else spaceJoin (sentences.take (maxSentences / 2 + 1) ++ lastSlice sentences (maxSentences / 2))

/-! ### Project classifier (`ProjectClassifier`) -/

/-- `ProjectClassifier._clean_text`: lowercase, replace non-word
non-whitespace characters by spaces, normalize whitespace. -/
def cleanTextC (text : String) : String :=
  if text = "" then ""
  else
    let lower := pyLower text
    let repl := String.mk (lower.toList.map fun c => if isWordChar c || c.isWhitespace then c else ' ')
    spaceJoin (pySplitWs repl)

/-- `ProjectClassifier._extract_text_features`: name, description, joined
tech stack and string metadata values, cleaned. -/
def extractTextFeaturesC (p : Project) : String :=
  let parts1 : List String := if p.name ≠ "" then [p.name] else []
  let parts2 := parts1 ++ (if p.description ≠ "" then [p.description] else [])
  let parts3 := parts2 ++ (if p.tech_stack ≠ [] then [spaceJoin p.tech_stack] else [])
  let parts4 := parts3 ++ stringMetaValues p
  cleanTextC (spaceJoin parts4)

/-- The prediction returned for projects with no text (source lines
326-331). -/
def unknownPrediction : Dict :=
  [("name", .str "unknown"), ("confidence", .num 0),
   ("category_probabilities", .dict [("unknown", .num 1)]),
   ("top_categories", .list [.list [.str "unknown", .num 1]])]

/-- `ProjectClassifier.predict`: empty combined text short-circuits to the
unknown prediction without invoking the trained model (modelled by the
parameter `modelBranch`). -/
def classifierPredict (modelBranch : String → Dict) (p : Project) : Dict :=
  let t := extractTextFeaturesC p
  if pyStrip t ≠ "" then modelBranch t else unknownPrediction

/-! ### Feature extractor (`FeatureExtractor`) -/

/-- The fixed quality keyword dictionaries. -/
def qualityKeywords : List (String × List String) :=
  [("code", ["clean", "maintainable", "readable", "modular", "tested"]),
   ("architecture", ["scalable", "microservices", "modular", "decoupled", "layered"]),
   ("documentation", ["documented", "api docs", "readme", "comments", "tutorial"]),
   ("testing", ["unit test", "integration test", "coverage", "tdd", "bdd"]),
   ("security", ["secure", "encrypted", "authentication", "authorization", "ssl"])]

/-- The fixed innovation keyword dictionaries. -/
def innovationKeywords : List (String × List String) :=
  [("novelty", ["innovative", "novel", "unique", "groundbreaking", "original"]),
   ("complexity", ["complex", "sophisticated", "advanced", "cutting-edge", "state-of-art"]),
   ("automation", ["automated", "ai", "machine learning", "intelligent", "smart"])]

/-- The fixed business keyword dictionaries. -/
def businessKeywords : List (String × List String) :=
  [("market", ["market", "business", "commercial", "revenue", "profit"]),
   ("user", ["user", "customer", "audience", "demand", "need"]),
   ("scale", ["scalable", "growth", "expansion", "large-scale", "enterprise"])]

/-- `FeatureExtractor._extract_text_features`.  The topic-model branch
(`len > 100 and self.vectorizer and self.lda_model`) never runs on a fresh
deployment: `load_model` leaves `vectorizer = None` unless a cached model
file exists, so no `topic_*` features are emitted. -/
def extractTextFeatures (p : Project) : List (String × ℚ) :=
  let parts1 : List String := if p.name ≠ "" then [p.name] else []
  let parts2 := parts1 ++ (if p.description ≠ "" then [p.description] else [])
  let parts3 := parts2 ++ stringMetaValues p
  let fullText := spaceJoin parts3
  let textLength : ℚ := fullText.length
  let wordCount : ℚ := (pySplitWs fullText).length
  let sentenceCount := sentenceSplitCount fullText
  let words := pySplitWs (pyLower fullText)
  let vocabSize : ℚ := words.dedup.length
  let lexDiv : ℚ := if words ≠ [] then (words.dedup.length : ℚ) / words.length else 0
  let avgWordLen : ℚ := if words ≠ [] then qMean (words.map fun w => (w.length : ℚ)) else 0
  let readability : ℚ :=
    if 0 < sentenceCount ∧ 0 < wordCount then
      (206.835 : ℚ) - 1.015 * (wordCount / sentenceCount)
        - 84.6 * (if avgWordLen = 0 then 5 else avgWordLen)
    else 0
  [("text_length", textLength), ("word_count", wordCount),
   ("sentence_count", sentenceCount), ("vocabulary_size", vocabSize),
   ("lexical_diversity", lexDiv), ("avg_word_length", avgWordLen),
   ("readability_score", readability)]

/-- The popular-technology list of `_extract_tech_features`. -/
def popularTechList : List String := ["python", "javascript", "react", "docker", "postgresql"]

/-- `FeatureExtractor._categorize_technologies` and its static category
map (distinct from the analyzer's lexicon). -/
def feCategoryMap : List (String × List String) :=
  [("language", ["python", "javascript", "java", "c++", "c#", "go", "rust", "ruby", "php", "swift"]),
   ("framework", ["django", "flask", "fastapi", "express", "react", "vue", "angular", "spring", "laravel"]),
   ("database", ["postgresql", "mysql", "mongodb", "redis", "elasticsearch", "cassandra"]),
   ("cloud", ["aws", "azure", "google_cloud", "aliyun", "heroku"]),
   ("tool", ["docker", "kubernetes", "git", "jenkins", "terraform"])]

/-- `FeatureExtractor._categorize_technologies`. -/
def feCategorize (ts : List String) : List (String × List String) :=
  ts.foldl
    (fun acc tech =>
      let tl := pyLower tech
      match feCategoryMap.find? fun cm => tl ∈ cm.2 with
      | some cm =>
        (match sLookup acc cm.1 with
         | some l => aDictSet acc cm.1 (l ++ [tech])
         | none => acc ++ [(cm.1, [tech])])
      | none =>
        (match sLookup acc "other" with
         | some l => aDictSet acc "other" (l ++ [tech])
         | none => acc ++ [("other", [tech])]))
    []

/-- `FeatureExtractor._extract_tech_features` (the project's `tech_stack`
is a list by construction, so the non-list else-branch is vacuous). -/
def extractTechFeatures (p : Project) : List (String × ℚ) :=
  let ts := p.tech_stack
  [("tech_count", (ts.length : ℚ)),
   ("tech_diversity", min (distinctCount ts / max (ts.length : ℚ) 1) 1),
   ("tech_category_count", ((feCategorize ts).length : ℚ)),
   ("popular_tech_ratio",
     ((ts.filter fun t => pyLower t ∈ popularTechList).length : ℚ) / max (ts.length : ℚ) 1)]

/-- `FeatureExtractor._extract_metadata_features`.  `np.std` needs a float
square root; `sqrtM` models it.  Booleans are numeric in Python
(`isinstance(True, int)`), so they reach the numeric branch as 1.0/0.0. -/
def extractMetadataFeatures (sqrtM : ℚ → ℚ) (p : Project) : List (String × ℚ) :=
  let md := p.metadata
  let listFeatures := md.filterMap fun kv =>
    match kv.2 with
    | .list l => some ("metadata_list_" ++ kv.1 ++ "_count", (l.length : ℚ))
    | _ => none
  let textValues := stringMetaValues p
  let numericValues := md.filterMap fun kv =>
    match kv.2 with
    | .num q => some q
    | .bool b => some (if b then 1 else 0)
    | _ => none
  let f1 := [("metadata_field_count", (md.length : ℚ))] ++ listFeatures
      ++ [("metadata_text_length", (textValues.map fun s => (s.length : ℚ)).sum),
          ("metadata_numeric_count", (numericValues.length : ℚ))]
  if numericValues ≠ [] then
    let mu := qMean numericValues
    f1 ++ [("metadata_numeric_mean", mu),
           ("metadata_numeric_std", sqrtM (qMean (numericValues.map fun x => (x - mu) ^ 2)))]
  else f1

/-- Per-category keyword-density scores (`matched keywords / dictionary
size`). -/
def keywordScores (table : List (String × List String)) (text : String) : List (String × ℚ) :=
  table.map fun cat =>
    (cat.1, ((cat.2.filter fun kw => strContains text kw).length : ℚ) / max (cat.2.length : ℚ) 1)

/-- `FeatureExtractor._extract_keyword_features`. -/
def extractKeywordFeatures (p : Project) : List (String × ℚ) :=
  let text0 := (if p.name ≠ "" then " " ++ p.name else "")
      ++ (if p.description ≠ "" then " " ++ p.description else "")
  let text := pyLower text0
  let qs := keywordScores qualityKeywords text
  let ivs := keywordScores innovationKeywords text
  let bs := keywordScores businessKeywords text
  [("quality_score_code", (sLookup qs "code").getD 0),
   ("quality_score_architecture", (sLookup qs "architecture").getD 0),
   ("quality_score_documentation", (sLookup qs "documentation").getD 0),
   ("quality_score_testing", (sLookup qs "testing").getD 0),
   ("quality_score_security", (sLookup qs "security").getD 0),
   ("overall_quality_score", qMean (qs.map fun kv => kv.2)),
   ("innovation_score_novelty", (sLookup ivs "novelty").getD 0),
   ("innovation_score_complexity", (sLookup ivs "complexity").getD 0),
   ("innovation_score_automation", (sLookup ivs "automation").getD 0),
   ("overall_innovation_score", qMean (ivs.map fun kv => kv.2)),
   ("business_score_market", (sLookup bs "market").getD 0),
   ("business_score_user", (sLookup bs "user").getD 0),
   ("business_score_scale", (sLookup bs "scale").getD 0),
   ("overall_business_score", qMean (bs.map fun kv => kv.2))]

/-- `FeatureExtractor._extract_complexity_features`. -/
def extractComplexityFeatures (existing : List (String × ℚ)) : List (String × ℚ) :=
  let techCount := (sLookup existing "tech_count").getD 0
  let techCatCount := (sLookup existing "tech_category_count").getD 0
  let techComplexity := min (techCount * 0.2 + techCatCount * 0.3) 1
  let textLength := (sLookup existing "text_length").getD 0
  let wordCount := (sLookup existing "word_count").getD 0
  let textComplexity := min ((textLength / 10000 + wordCount / 500) / 2) 1
  let mdCount := (sLookup existing "metadata_field_count").getD 0
  let mdComplexity := min (mdCount / 20) 1
  let overall := (techComplexity + textComplexity + mdComplexity) / 3
  let projectSize : ℚ :=
    if 10 < techCount then 3 else if 5 < techCount then 2 else if 0 < techCount then 1 else 0
  [("tech_complexity", techComplexity), ("text_complexity", textComplexity),
   ("metadata_complexity", mdComplexity), ("overall_complexity", overall),
   ("project_size", projectSize)]

/-- `FeatureExtractor._calculate_derived_features` (note the two reads of
`overall_quality_score` with different defaults, as in the source). -/
def calcDerivedFeatures (features : List (String × ℚ)) : List (String × ℚ) :=
  let quality := (sLookup features "overall_quality_score").getD 0
  let techMaturity := (sLookup features "popular_tech_ratio").getD 0
  let complexity := (sLookup features "overall_complexity").getD (1/2)
  let quality2 := (sLookup features "overall_quality_score").getD (1/2)
  let techDiversity := (sLookup features "tech_diversity").getD 0
  let standardization := (sLookup features "popular_tech_ratio").getD 0
  let documentation := (sLookup features "quality_score_documentation").getD 0
  let codeQuality := (sLookup features "quality_score_code").getD 0
  let innovation := (sLookup features "overall_innovation_score").getD 0
  let novelty := (sLookup features "innovation_score_novelty").getD 0
  [("maturity_score", (quality + techMaturity) / 2),
   ("risk_score", complexity * (1 - quality2)),
   ("feasibility_score", (standardization + (1 - techDiversity)) / 2),
   ("maintainability_score", (documentation + codeQuality) / 2),
   ("innovation_potential", (innovation + novelty) / 2)]

/-- Python `dict.update` on feature maps. -/
def mergeFeatures (a b : List (String × ℚ)) : List (String × ℚ) :=
  b.foldl (fun acc kv => aDictSet acc kv.1 kv.2) a

/-- `FeatureExtractor.extract_features` (non-exception path;
`_make_serializable` is the identity on these numeric maps). -/
def extractFeatures (sqrtM : ℚ → ℚ) (p : Project) : List (String × ℚ) :=
  let f1 := extractTextFeatures p
  let f2 := mergeFeatures f1 (extractTechFeatures p)
  let f3 := mergeFeatures f2 (extractMetadataFeatures sqrtM p)
  let f4 := mergeFeatures f3 (extractKeywordFeatures p)
  let f5 := mergeFeatures f4 (extractComplexityFeatures f4)
  mergeFeatures f5 (calcDerivedFeatures f5)

/-! ### Analysis bundle (`backend/ml_models/__init__.py`) -/

/-- `calculate_complexity_score`. -/
def calculateComplexityScore (features : List (String × ℚ)) (techAnalysis : Dict) : ℚ :=
  let techCount := (dGetList techAnalysis "detected_tech").length
  let s1 : ℚ := 50 + min ((techCount : ℚ) * 5) 25
  let s2 := match sLookup features "project_size" with
    | some size =>
      if 1000 < size then s1 + 15 else if 500 < size then s1 + 10
      else if 100 < size then s1 + 5 else s1
    | none => s1
  let s3 := match sLookup features "architecture_complexity" with
    | some c => s2 + c * 10
    | none => s2
  clampScore s3

/-- `calculate_maturity_score`. -/
def calculateMaturityScore (features : List (String × ℚ)) (techAnalysis : Dict) : ℚ :=
  let techMaturity := dGetNumD techAnalysis "tech_maturity" (1/2)
  let s1 : ℚ := 50 + (techMaturity - 1/2) * 40
  let s2 := match sLookup features "documentation_score" with
    | some d => s1 + (d - 1/2) * 20
    | none => s1
  let s3 := match sLookup features "test_coverage" with
    | some t => s2 + (t - 1/2) * 20
    | none => s2
  clampScore s3

/-- The string entries of a dynamic list. -/
def strEntries (l : List DVal) : List String :=
  l.filterMap fun v => match v with | .str s => some s | _ => none

/-- `assess_risks` (later risk-level assignments overwrite earlier ones,
exactly as in the source). -/
def assessRisks (features : List (String × ℚ)) (techAnalysis : Dict) : Dict :=
  let outdatedTech := dGetList techAnalysis "outdated_technologies"
  let risks1 : List String :=
    if !outdatedTech.isEmpty then
      ["使用了过时技术: " ++ String.intercalate ", " (strEntries outdatedTech)]
    else []
  let level1 := if !outdatedTech.isEmpty then "medium" else "low"
  let dependencyCount := (dGetList techAnalysis "dependencies").length
  let risks2 := if 50 < dependencyCount then risks1 ++ ["依赖过多 (" ++ toString dependencyCount ++ "个)"] else risks1
  let level2 := if 50 < dependencyCount then "medium" else level1
  let secIssue := sLookup features "security_issues"
  let risks3 := match secIssue with
    | some si => if 0 < si then risks2 ++ ["存在安全漏洞: " ++ toString si.num ++ "个"] else risks2
    | none => risks2
  let level3 := match secIssue with
    | some si => if 0 < si then "high" else level2
    | none => level2
  let maint := sLookup features "maintenance_score"
  let risks4 := match maint with
    | some m => if m < 3/10 then risks3 ++ ["维护困难"] else risks3
    | none => risks3
  let level4 := match maint with
    | some m => if m < 3/10 then "medium" else level3
    | none => level3
  [("level", .str level4), ("factors", .list (risks4.map .str)),
   ("outdated_technologies", .list outdatedTech),
   ("dependency_count", .num dependencyCount)]

/-- `generate_recommendations` (the top-level one). -/
def generateRecommendations (features : List (String × ℚ)) (techAnalysis : Dict)
    (categoryResult : Dict) : List String :=
  let category := dGetStrD categoryResult "name" ""
  let r1 : List String :=
    if category = "web_development" then
      ["考虑使用现代前端框架如React或Vue.js", "实施响应式设计以支持移动设备"]
    else if category = "machine_learning" then
      ["考虑使用PyTorch或TensorFlow进行模型开发", "添加模型评估和监控机制"]
    else []
  let outdated := strEntries (dGetList techAnalysis "outdated_technologies")
  let r2 := r1 ++ outdated.map fun t => "考虑升级或替换过时技术: " ++ t
  let r3 := match sLookup features "documentation_score" with
    | some d => if d < 1/2 then r2 ++ ["加强文档编写，特别是API文档和部署指南"] else r2
    | none => r2
  let r4 := match sLookup features "test_coverage" with
    | some t => if t < 3/10 then r3 ++ ["增加测试覆盖率，特别是单元测试和集成测试"] else r3
    | none => r3
  let r5 := match sLookup features "security_issues" with
    | some si => if 0 < si then r4 ++ ["立即修复发现的安全漏洞"] else r4
    | none => r4
  let r6 :=
    if r5.length < 3 then
      r5 ++ (["实施持续集成/持续部署(CI/CD)流程", "添加性能监控和日志记录",
              "定期进行代码审查和重构", "考虑容器化部署以提高可移植性"].take (3 - r5.length))
    else r5
  r6.take 10

/-- The external, library-backed computations of the pipeline, passed as
parameters: numpy float sqrt, the TF-IDF cohesion, the trained classifier
branch, and the NLTK-backed non-empty NLP analysis. -/
structure ExternalModels where
  sqrtM : ℚ → ℚ
  cohF : List String → ℚ
  modelBranch : String → Dict
  nlpFull : String → Dict

/-- `analyze_project` (non-exception path): the merged analysis bundle. -/
def analyzeProject (M : ExternalModels) (p : Project) : Dict :=
  let features := extractFeatures M.sqrtM p
  let categoryResult := classifierPredict M.modelBranch p
  let techAnalysis := analyzeTechStack M.cohF p
  let nlpAnalysis := if p.description ≠ "" then analyzeText M.nlpFull p.description else []
  [("category", .dict categoryResult),
   ("tech_stack_analysis", .dict techAnalysis),
   ("features", .dict (numDict features)),
   ("nlp_analysis", .dict nlpAnalysis),
   ("complexity_score", .num (calculateComplexityScore features techAnalysis)),
   ("maturity_score", .num (calculateMaturityScore features techAnalysis)),
   ("risk_assessment", .dict (assessRisks features techAnalysis)),
   ("recommendations", .list ((generateRecommendations features techAnalysis categoryResult).map .str)),
   ("model_versions", .dict [("classifier", .str "1.0.0"), ("tech_analyzer", .str "1.0.0"),
                             ("feature_extractor", .str "1.0.0"), ("nlp_processor", .str "1.0.0")])]

/-! ### Scoring engine (`backend/scoring.py`) -/

/-- `ScoringResult` (backend/schemas.py).  Pydantic validates the field
ranges at construction but, with `validate_assignment` left at its default,
not on later assignment — `calculate_project_score` mutates
`overall_score` after construction, which this model reflects by plain
record update. -/
structure ScoringResult where
  quality_score : ℚ
  innovation_score : ℚ
  feasibility_score : ℚ
  business_value_score : ℚ
  overall_score : ℚ
  scoring_details : Dict
  algorithm_version : String

/-- The maturity value read through
`analysis_result.get("tech_stack_analysis", {}).get("analysis", {}).get("maturity", 0.5)`. -/
def techMaturityOf (analysis : Dict) : ℚ :=
  dGetNumD (dGetDict (dGetDict analysis "tech_stack_analysis") "analysis") "maturity" (1/2)

/-- The outdated-technology list read through
`...get("analysis", {}).get("outdated_technologies", [])`. -/
def outdatedListOf (analysis : Dict) : List DVal :=
  dGetList (dGetDict (dGetDict analysis "tech_stack_analysis") "analysis") "outdated_technologies"

/-- The predicted category name read through
`analysis_result.get("category", {}).get("name", "")`. -/
def categoryNameOf (analysis : Dict) : String :=
  dGetStrD (dGetDict analysis "category") "name" ""

/-- The risk level read through
`analysis_result.get("risk_assessment", {}).get("level", "medium")`. -/
def riskLevelOf (analysis : Dict) : String :=
  dGetStrD (dGetDict analysis "risk_assessment") "level" "medium"

/-- The sentiment score read through
`analysis_result.get("nlp_analysis", {}).get("sentiment", {}).get("score", 0)`. -/
def sentimentOf (analysis : Dict) : ℚ :=
  dGetNumD (dGetDict (dGetDict analysis "nlp_analysis") "sentiment") "score" 0

/-- The feature map the scoring engine reads
(`analysis_result.get("features", {})`). -/
def featuresOf (analysis : Dict) : List (String × ℚ) :=
  numEntries (dGetDict analysis "features")

/-- `BaseScoringAlgorithm._calculate_quality_score`. -/
def qualityScore (features : List (String × ℚ)) (analysis : Dict) : ℚ :=
  let s0 : ℚ := 50
  let s1 := match sLookup features "quality_score_code" with
    | some v => s0 + v * 20 | none => s0
  let s2 := match sLookup features "quality_score_architecture" with
    | some v => s1 + v * 15 | none => s1
  let s3 := match sLookup features "quality_score_documentation" with
    | some v => s2 + v * 10 | none => s2
  let s4 := match sLookup features "quality_score_testing" with
    | some v => s3 + v * 10 | none => s3
  let s5 := match sLookup features "quality_score_security" with
    | some v => s4 + v * 5 | none => s4
  clampScore (s5 + (techMaturityOf analysis - 1/2) * 20)

/-- The categories receiving the +10 innovation bonus. -/
def innovationCategories : List String :=
  ["machine_learning", "iot", "blockchain", "game_development"]

/-- `BaseScoringAlgorithm._calculate_innovation_score`. -/
def innovationScore (features : List (String × ℚ)) (analysis : Dict) : ℚ :=
  let s0 : ℚ := 50
  let s1 := match sLookup features "innovation_score_novelty" with
    | some v => s0 + v * 25 | none => s0
  let s2 := match sLookup features "innovation_score_complexity" with
    | some v => s1 + v * 20 | none => s1
  let s3 := match sLookup features "innovation_score_automation" with
    | some v => s2 + v * 15 | none => s2
  let s4 := if categoryNameOf analysis ∈ innovationCategories then s3 + 10 else s3
  let s5 := if (outdatedListOf analysis).isEmpty then s4 + 5 else s4
  clampScore s5

/-- `BaseScoringAlgorithm._calculate_feasibility_score`. -/
def feasibilityScore (features : List (String × ℚ)) (analysis : Dict) : ℚ :=
  let complexity := (sLookup features "overall_complexity").getD (1/2)
  let s1 : ℚ := 50 - (complexity - 1/2) * 30
  let s2 := s1 + (techMaturityOf analysis - 1/2) * 25
  let s3 := match sLookup features "project_size" with
    | some size => if size = 3 then s2 - 15 else if size = 2 then s2 - 5 else s2
    | none => s2
  let risk := riskLevelOf analysis
  let s4 :=
    if risk = "high" then s3 - 20
    else if risk = "medium" then s3 - 10
    else if risk = "low" then s3 + 5
    else s3
  let s5 := match sLookup features "maintainability_score" with
    | some m => s4 + m * 15 | none => s4
  clampScore s5

/-- The categories receiving the +10 business-value bonus. -/
def businessCategories : List String :=
  ["web_development", "mobile_app", "data_science", "cloud_infrastructure"]

/-- `BaseScoringAlgorithm._calculate_business_value_score`. -/
def businessValueScore (features : List (String × ℚ)) (analysis : Dict) : ℚ :=
  let s0 : ℚ := 50
  let s1 := match sLookup features "business_score_market" with
    | some v => s0 + v * 25 | none => s0
  let s2 := match sLookup features "business_score_user" with
    | some v => s1 + v * 20 | none => s1
  let s3 := match sLookup features "business_score_scale" with
    | some v => s2 + v * 15 | none => s2
  let s4 := if categoryNameOf analysis ∈ businessCategories then s3 + 10 else s3
  let s5 := match sLookup features "innovation_potential" with
    | some v => s4 + v * 10 | none => s4
  clampScore (s5 + sentimentOf analysis * 10)

/-- The effective weight of a dimension: the caller's value, or 0.25. -/
def weightOf (w : List (String × ℚ)) (k : String) : ℚ := (sLookup w k).getD (1/4)

/-- `BaseScoringAlgorithm._calculate_overall_score`: the weighted sum,
rounded to two decimals; a `None` or empty weight map means equal 0.25
weights. -/
def calcOverallScore (q i f b : ℚ) (weights : Option (List (String × ℚ))) : ℚ :=
  match weights with
  | some w =>
    if !w.isEmpty then
      pyRound2 (q * weightOf w "quality" + i * weightOf w "innovation"
        + f * weightOf w "feasibility" + b * weightOf w "business_value")
    else
      pyRound2 (q * (1/4) + i * (1/4) + f * (1/4) + b * (1/4))
  | none => pyRound2 (q * (1/4) + i * (1/4) + f * (1/4) + b * (1/4))

/-- `BaseScoringAlgorithm._get_default_score` (dimension and overall
scores all 50, an `error` marker in the detail trace). -/
def defaultScoringResult (algName algVersion : String) : ScoringResult :=
  { quality_score := 50, innovation_score := 50, feasibility_score := 50,
    business_value_score := 50, overall_score := 50,
    scoring_details := [("algorithm", .str algName), ("version", .str algVersion),
                        ("error", .str "评分计算失败，使用默认值"),
                        ("timestamp", .str "<utcnow>")],
    algorithm_version := algVersion }

/-- The detail trace built by `BaseScoringAlgorithm.calculate_score`. -/
def baseScoringDetails (algName algVersion : String) (features : List (String × ℚ))
    (analysis : Dict) : Dict :=
  [("algorithm", .str algName), ("version", .str algVersion),
   ("features_used", .list ((features.map Prod.fst).map .str)),
   ("category", .dict (dGetDict analysis "category")),
   ("timestamp", .str "<utcnow>")]

/-- The try-body of `BaseScoringAlgorithm.calculate_score` (run on the
instance named `algName`, which is "advanced" when called through
`super()` from the advanced algorithm). -/
def baseCalculateScoreBody (algName algVersion : String) (analysis : Dict) : ScoringResult :=
  let features := featuresOf analysis
  let q := qualityScore features analysis
  let i := innovationScore features analysis
  let f := feasibilityScore features analysis
  let b := businessValueScore features analysis
  { quality_score := q, innovation_score := i, feasibility_score := f,
    business_value_score := b,
    overall_score := calcOverallScore q i f b none,
    scoring_details := baseScoringDetails algName algVersion features analysis,
    algorithm_version := algVersion }

/-- `BaseScoringAlgorithm.calculate_score`: any internal exception
(injected through `fail`) yields the default score. -/
def baseCalculateScore (fail : Bool) (algName algVersion : String) (analysis : Dict) : ScoringResult :=
  if fail then defaultScoringResult algName algVersion
  else baseCalculateScoreBody algName algVersion analysis

/-- The (quality, innovation, feasibility, business_value) adjustment
values accumulated by `AdvancedScoringAlgorithm._apply_advanced_adjustments`
(`adjustments.get(k, 0) ± c` assignment chains). -/
def advancedAdjustments (analysis : Dict) : ℚ × ℚ × ℚ × ℚ :=
  let diversity := dGetNumD (dGetDict (dGetDict analysis "tech_stack_analysis") "analysis") "diversity" (1/2)
  let aF1 : ℚ := if 7/10 < diversity then -5 else 0
  let aI1 : ℚ := if 7/10 < diversity then 0 else if diversity < 3/10 then -3 else 0
  let aB1 : ℚ := if 7/10 < diversity then 0 else if diversity < 3/10 then -2 else 0
  let risk := riskLevelOf analysis
  let aF2 := if risk = "high" then aF1 - 15 else if risk = "low" then aF1 + 5 else aF1
  let aQ2 : ℚ := if risk = "high" then -10 else 0
  let projectSize := (sLookup (featuresOf analysis) "project_size").getD 0
  let aF3 := if projectSize = 3 then aF2 - 10 else if projectSize = 1 then aF2 + 5 else aF2
  let aB3 := if projectSize = 3 then aB1 + 5 else aB1
  let aI3 := if projectSize = 1 then aI1 - 3 else aI1
  let sentiment := sentimentOf analysis
  let aB4 := if 1/5 < sentiment then aB3 + 3 else aB3
  let aQ4 := if 1/5 < sentiment then aQ2 else if sentiment < -(1/5) then aQ2 - 5 else aQ2
  (aQ4, aI3, aF3, aB4)

/-- `AdvancedScoringAlgorithm._apply_advanced_adjustments` (try-body):
adjusted scores re-clamped with `max(0, min(100, ...))`, overall
recomputed with default weights, detail trace extended.  (The recorded
`advanced_adjustments` dict is modelled with all four keys, absent ones as
0; no claim reads it.) -/
def applyAdvancedAdjustments (base : ScoringResult) (analysis : Dict) : ScoringResult :=
  let adj := advancedAdjustments analysis
  let q := max 0 (min 100 (base.quality_score + adj.1))
  let i := max 0 (min 100 (base.innovation_score + adj.2.1))
  let f := max 0 (min 100 (base.feasibility_score + adj.2.2.1))
  let b := max 0 (min 100 (base.business_value_score + adj.2.2.2))
  { quality_score := q, innovation_score := i, feasibility_score := f,
    business_value_score := b,
    overall_score := calcOverallScore q i f b none,
    scoring_details :=
      dictSet (dictSet base.scoring_details "advanced_adjustments"
          (.dict [("quality", .num adj.1), ("innovation", .num adj.2.1),
                  ("feasibility", .num adj.2.2.1), ("business_value", .num adj.2.2.2)]))
        "adjusted_scores"
        (.dict [("quality", .num q), ("innovation", .num i),
                ("feasibility", .num f), ("business_value", .num b)]),
    algorithm_version := "2.0.0" }

/-- `AdvancedScoringAlgorithm.calculate_score`: the base pass (run with
this instance's name/version), then the adjustment pass; an exception in
the adjustment pass — or around it — returns the base result unchanged. -/
def advancedCalculateScore (failAdj failBase : Bool) (analysis : Dict) : ScoringResult :=
  let base := baseCalculateScore failBase "advanced" "2.0.0" analysis
  if failAdj then base else applyAdvancedAdjustments base analysis

/-- `MLBasedScoringAlgorithm._extract_ml_features`. -/
def extractMlFeatures (analysis : Dict) : Dict :=
  let features := featuresOf analysis
  let g := fun (k : String) => DVal.num ((sLookup features k).getD 0)
  [("text_length", g "text_length"), ("vocabulary_size", g "vocabulary_size"),
   ("readability_score", g "readability_score"),
   ("tech_count", g "tech_count"), ("tech_diversity", g "tech_diversity"),
   ("popular_tech_ratio", g "popular_tech_ratio"),
   ("overall_quality_score", g "overall_quality_score"),
   ("code_quality", g "quality_score_code"),
   ("architecture_quality", g "quality_score_architecture"),
   ("overall_innovation_score", g "overall_innovation_score"),
   ("novelty_score", g "innovation_score_novelty"),
   ("overall_complexity", g "overall_complexity"),
   ("project_size", g "project_size"),
   ("risk_level", .str (riskLevelOf analysis)),
   ("sentiment_score", .num (sentimentOf analysis)),
   ("category", .str (dGetStrD (dGetDict analysis "category") "name" "unknown")),
   ("category_confidence", .num (dGetNumD (dGetDict analysis "category") "confidence" 0))]

/-- `MLBasedScoringAlgorithm._simulate_ml_prediction`: the deterministic
rule table (note the tech-count rule overwrites, not accumulates, the
readability quality adjustment, as in the source). -/
def simulateMlPrediction (mlFeatures : Dict) : ℚ × ℚ × ℚ × ℚ :=
  let readability := dGetNumD mlFeatures "readability_score" 0
  let aQ1 : ℚ := if 60 < readability then 10 else if readability < 30 then -5 else 0
  let techCount := dGetNumD mlFeatures "tech_count" 0
  let aF1 : ℚ := if 5 < techCount then -5 else 0
  let aQ2 := if 5 < techCount then (-3 : ℚ) else aQ1
  let novelty := dGetNumD mlFeatures "novelty_score" 0
  let aI : ℚ := if 1/2 < novelty then 15 else 0
  let risk := dGetStrD mlFeatures "risk_level" ""
  let aF2 := if risk = "high" then aF1 - 10 else if risk = "low" then aF1 + 5 else aF1
  (max 0 (min 100 ((50 : ℚ) + aQ2)), max 0 (min 100 ((50 : ℚ) + aI)),
   max 0 (min 100 ((50 : ℚ) + aF2)), max 0 (min 100 (50 : ℚ)))

/-- `MLBasedScoringAlgorithm.calculate_score`: an exception (`failMl`)
falls back to the Advanced result itself; a model-load failure keeps the
ML wrapper but takes the Advanced dimension scores. -/
def mlCalculateScore (failMl mlLoadFail failAdj failBase : Bool) (analysis : Dict) : ScoringResult :=
  if failMl then advancedCalculateScore failAdj failBase analysis
  else
    let mlFeatures := extractMlFeatures analysis
    let scores :=
      if mlLoadFail then
        let ar := advancedCalculateScore failAdj failBase analysis
        (ar.quality_score, ar.innovation_score, ar.feasibility_score, ar.business_value_score)
      else simulateMlPrediction mlFeatures
    { quality_score := scores.1, innovation_score := scores.2.1,
      feasibility_score := scores.2.2.1, business_value_score := scores.2.2.2,
      overall_score := calcOverallScore scores.1 scores.2.1 scores.2.2.1 scores.2.2.2 none,
      scoring_details := [("algorithm", .str "ml_based"), ("version", .str "3.0.0"),
                          ("ml_features", .dict mlFeatures),
                          ("model_used", .str "simulated_ml_model"),
                          ("timestamp", .str "<utcnow>")],
      algorithm_version := "3.0.0" }

/-- The failure-injection points of the scoring engine: each flag stands
for "an exception is raised inside this try block". -/
structure FailFlags where
  base : Bool
  adv : Bool
  ml : Bool
  mlLoad : Bool
  top : Bool

/-- The no-exception run. -/
def noFailure : FailFlags := ⟨false, false, false, false, false⟩

/-- The algorithm selector (`ScoringAlgorithm` in backend/schemas.py,
dispatched by `ScoringAlgorithmFactory`). -/
inductive ScoringAlg where
  | basic
  | advanced
  | ml_based

/-- `ScoringAlgorithmFactory.create_algorithm` + `calculate_score`. -/
def runScoringAlgorithm (flags : FailFlags) (alg : ScoringAlg) (analysis : Dict) : ScoringResult :=
  match alg with
  | .basic => baseCalculateScore flags.base "base" "1.0.0" analysis
  | .advanced => advancedCalculateScore flags.adv flags.base analysis
  | .ml_based => mlCalculateScore flags.ml flags.mlLoad flags.adv flags.base analysis

/-- `ScoringRequest.validate_weights` (backend/schemas.py): `True` when
the request passes validation.  A `None` or empty (falsy) weight map skips
the check entirely; a non-empty one is accepted iff its value sum is
within 0.01 of 1. -/
def validateWeights (weights : Option (List (String × ℚ))) : Bool :=
  match weights with
  | some w => if !w.isEmpty then decide (|(w.map fun kv => kv.2).sum - 1| ≤ 1/100) else true
  | none => true

/-- The fallback result of `calculate_project_score`'s own except block. -/
def errorFallbackResult : ScoringResult :=
  { quality_score := 50, innovation_score := 50, feasibility_score := 50,
    business_value_score := 50, overall_score := 50,
    scoring_details := [("error", .str "<exception message>"),
                        ("algorithm", .str "error_fallback"),
                        ("timestamp", .str "<utcnow>")],
    algorithm_version := "0.0.0" }

/-- `calculate_project_score`: analyze, score, then — only for a truthy
(non-empty) weight map — overwrite `overall_score` with the re-weighted
overall and record the custom weights.  (The `options` parameter only adds
a detail entry and is omitted.) -/
def calculateProjectScore (M : ExternalModels) (flags : FailFlags) (p : Project)
    (alg : ScoringAlg) (weights : Option (List (String × ℚ))) : ScoringResult :=
  if flags.top then errorFallbackResult
  else
    let analysis := analyzeProject M p
    let result := runScoringAlgorithm flags alg analysis
    match weights with
    | some w =>
      if !w.isEmpty then
        { result with
          overall_score := calcOverallScore result.quality_score result.innovation_score
              result.feasibility_score result.business_value_score (some w),
          scoring_details := dictSet result.scoring_details "custom_weights"
              (.dict (w.map fun kv => (kv.1, DVal.num kv.2))) }
      else result
    | none => result

/-! ### Lookup lemmas -/

theorem sLookup_cons_ne {α : Type} {k key : String} {v : α} {rest : List (String × α)}
    (h : k ≠ key) : sLookup ((k, v) :: rest) key = sLookup rest key := by
  simp [sLookup, h]

theorem sLookup_cons_eq {α : Type} {key : String} {v : α} {rest : List (String × α)} :
    sLookup ((key, v) :: rest) key = some v := by
  simp [sLookup]

theorem sLookup_append {α : Type} (a b : List (String × α)) (key : String) :
    sLookup (a ++ b) key = match sLookup a key with
      | some w => some w
      | none => sLookup b key := by
  induction a with
  | nil => simp [sLookup]
  | cons kv rest ih =>
    by_cases he : kv.1 = key
    · obtain ⟨k2, v2⟩ := kv
      simp at he
      subst he
      simp [sLookup]
    · obtain ⟨k2, v2⟩ := kv
      simp at he
      simp [sLookup, he, ih]

theorem sLookup_replaceMap_ne {α : Type} {k key : String} (hne : k ≠ key)
    (d : List (String × α)) (v : α) :
    sLookup (d.map fun kv => if kv.1 = k then (k, v) else kv) key = sLookup d key := by
  induction d with
  | nil => rfl
  | cons kv rest ih =>
    obtain ⟨k2, v2⟩ := kv
    simp only [List.map_cons]
    by_cases h2 : k2 = k
    · subst h2
      rw [show (if (k2, v2).1 = k2 then (k2, v) else (k2, v2)) = (k2, v) from if_pos rfl]
      rw [sLookup_cons_ne hne, sLookup_cons_ne hne]
      exact ih
    · rw [show (if (k2, v2).1 = k then (k, v) else (k2, v2)) = (k2, v2) from if_neg h2]
      by_cases h3 : k2 = key
      · subst h3
        rw [sLookup_cons_eq, sLookup_cons_eq]
      · rw [sLookup_cons_ne h3, sLookup_cons_ne h3]
        exact ih

theorem sLookup_replaceMap_eq {α : Type} (k : String) (d : List (String × α)) (v : α)
    (hp : (sLookup d k).isSome) :
    sLookup (d.map fun kv => if kv.1 = k then (k, v) else kv) k = some v := by
  induction d with
  | nil => simp [sLookup] at hp
  | cons kv rest ih =>
    obtain ⟨k2, v2⟩ := kv
    simp only [List.map_cons]
    by_cases h2 : k2 = k
    · subst h2
      rw [show (if (k2, v2).1 = k2 then (k2, v) else (k2, v2)) = (k2, v) from if_pos rfl]
      rw [sLookup_cons_eq]
    · rw [show (if (k2, v2).1 = k then (k, v) else (k2, v2)) = (k2, v2) from if_neg h2]
      rw [sLookup_cons_ne h2] at hp
      rw [sLookup_cons_ne h2]
      exact ih hp

theorem sLookup_aDictSet {α : Type} (d : List (String × α)) (k : String) (v : α) (key : String) :
    sLookup (aDictSet d k v) key = if k = key then some v else sLookup d key := by
  unfold aDictSet
  by_cases hp : (sLookup d k).isSome
  · rw [if_pos hp]
    by_cases he : k = key
    · subst he
      rw [if_pos rfl]
      exact sLookup_replaceMap_eq k d v hp
    · rw [if_neg he]
      exact sLookup_replaceMap_ne he d v
  · rw [if_neg hp]
    rw [sLookup_append]
    have hnone : sLookup d k = none := by
      cases hl : sLookup d k
      · rfl
      · rw [hl] at hp; simp at hp
    by_cases he : k = key
    · subst he
      rw [hnone, if_pos rfl]
      exact sLookup_cons_eq
    · rw [if_neg he]
      cases hl : sLookup d key
      · rw [sLookup_cons_ne he]
        rfl
      · rfl

theorem sLookup_mergeFeatures_of_not_mem {a b : List (String × ℚ)} {key : String}
    (h : ∀ kv ∈ b, kv.1 ≠ key) :
    sLookup (mergeFeatures a b) key = sLookup a key := by
  induction b generalizing a with
  | nil => rfl
  | cons kv rest ih =>
    have h1 : kv.1 ≠ key := h kv (List.mem_cons_self kv rest)
    have h2 : ∀ kv2 ∈ rest, kv2.1 ≠ key := fun kv2 hm => h kv2 (List.mem_cons_of_mem kv hm)
    show sLookup (mergeFeatures (aDictSet a kv.1 kv.2) rest) key = sLookup a key
    rw [ih h2, sLookup_aDictSet]
    simp [h1]

/-! ### Lexicon soundness helpers -/

set_option maxRecDepth 10000 in
/-- Every alias-table value is a lexicon key. -/
theorem techAliases_sound : ∀ kv ∈ techAliases, (sLookup techDefinitions kv.2).isSome := by decide

set_option maxRecDepth 10000 in
/-- No lexicon key is on the outdated deny-list. -/
theorem techDefinitions_not_outdated : ∀ kv ∈ techDefinitions, isOutdatedTech kv.1 = false := by decide

/-- The lexicon has no `outdated_technologies`-named tech (sanity, unused). -/
theorem normStage4_sound {tl x : String} (h : normStage4 tl = some x) :
    (sLookup techDefinitions x).isSome := by
  unfold normStage4 at h
  cases hf : techDefinitions.find? fun kv => strContains tl kv.1 || strContains kv.1 tl with
  | none => rw [hf] at h; simp at h
  | some kv =>
    rw [hf] at h
    simp at h
    subst h
    have hm : kv ∈ techDefinitions := List.mem_of_find?_eq_some hf
    have : (kv.1, kv.2) ∈ techDefinitions := by simpa using hm
    exact sLookup_isSome_of_mem this

/-- Whatever `_normalize_tech_name` returns is a lexicon key. -/
theorem normalizeTechName_lexicon {t x : String} (h : normalizeTechName t = some x) :
    (sLookup techDefinitions x).isSome := by
  unfold normalizeTechName at h
  by_cases ht : t = ""
  · rw [if_pos ht] at h
    cases h
  · rw [if_neg ht] at h
    by_cases h1 : (sLookup techDefinitions (pyLower (pyStrip t))).isSome
    · rw [if_pos h1] at h
      cases h
      exact h1
    · rw [if_neg h1] at h
      cases h2 : sLookup techAliases (pyLower (pyStrip t)) with
      | some c =>
        rw [h2] at h
        cases h
        exact techAliases_sound _ (sLookup_mem h2)
      | none =>
        rw [h2] at h
        dsimp only at h
        cases hb : (decide (cleanTechName (pyLower (pyStrip t)) ≠ "") &&
            (sLookup techDefinitions (cleanTechName (pyLower (pyStrip t)))).isSome) with
        | true =>
          rw [if_pos hb] at h
          cases h
          have hb2 := hb
          simp only [Bool.and_eq_true] at hb2
          exact hb2.2
        | false =>
          rw [if_neg (by rw [hb]; exact Bool.false_ne_true)] at h
          exact normStage4_sound h

/-- Every element of `_extract_from_text`'s result is a normalizer output. -/
theorem extractFromText_mem {s t : String} (h : t ∈ extractFromText s) :
    ∃ a, normalizeTechName a = some t := by
  unfold extractFromText at h
  by_cases hs : s = ""
  · simp [hs] at h
  · simp only [hs, if_false] at h
    rcases List.mem_filterMap.1 h with ⟨a, _, ha⟩
    exact ⟨a, ha⟩

/-- Every detected technology is a lexicon key. -/
theorem detectTechnologies_lexicon {p : Project} {t : String}
    (h : t ∈ detectTechnologies p) : (sLookup techDefinitions t).isSome := by
  unfold detectTechnologies at h
  have h2 : t ∈ ((p.tech_stack.filterMap normalizeTechName)
      ++ (if p.description ≠ "" then extractFromText (pyLower p.description) else [])
      ++ (if p.name ≠ "" then extractFromText (pyLower p.name) else [])
      ++ ((stringMetaValues p).flatMap fun s => extractFromText (pyLower s))).dedup := by
    simpa [pySorted, List.mem_insertionSort] using h
  rw [List.mem_dedup] at h2
  have hnorm : ∃ a, normalizeTechName a = some t := by
    rcases List.mem_append.1 h2 with h3 | h3
    · rcases List.mem_append.1 h3 with h4 | h4
      · rcases List.mem_append.1 h4 with h5 | h5
        · rcases List.mem_filterMap.1 h5 with ⟨a, _, ha⟩
          exact ⟨a, ha⟩
        · by_cases hd : p.description ≠ ""
          · rw [if_pos hd] at h5
            exact extractFromText_mem h5
          · rw [if_neg hd] at h5
            cases h5
      · by_cases hn : p.name ≠ ""
        · rw [if_pos hn] at h4
          exact extractFromText_mem h4
        · rw [if_neg hn] at h4
          cases h4
    · rcases List.mem_flatMap.1 h3 with ⟨s, _, hs⟩
      exact extractFromText_mem hs
  rcases hnorm with ⟨a, ha⟩
  exact normalizeTechName_lexicon ha


/-! ### Concrete inputs used by witnesses and counterexamples -/

/-- The all-empty project record. -/
def emptyProject : Project :=
  { name := "", description := "", category := none, tech_stack := [], metadata := [] }

/-- A fixed instantiation of the external-model parameters. -/
def fixedModels : ExternalModels :=
  { sqrtM := fun _ => 0, cohF := fun _ => 1/2, modelBranch := fun _ => [], nlpFull := fun _ => [] }

/-- A project declaring its stack explicitly. -/
def projDeclared : Project :=
  { name := "", description := "", category := none,
    tech_stack := ["python", "js"], metadata := [] }

/-- The same stack as `projDeclared`, declared with aliases and in another
order. -/
def projAliased : Project :=
  { name := "", description := "", category := none,
    tech_stack := ["js", "py", "python"], metadata := [] }

/-- C5: for every project record, technology detection returns a list with
no duplicates, sorted in the canonical code-point (lexicographic) order,
in which every element is a key of the loaded lexicon (never a raw user
string), and whose exact value is determined by its element set — so two
calls on identical inputs (the function is pure) and even two calls
agreeing on the detected element set return the same elements in the same
order. -/
theorem detect_canonical_sorted_lexicon (p : Project) :
    List.Sorted strLeRel (detectTechnologies p)
    ∧ (detectTechnologies p).Nodup
    ∧ (∀ t ∈ detectTechnologies p, (sLookup techDefinitions t).isSome)
    ∧ ∀ q : Project, (∀ t, t ∈ detectTechnologies p ↔ t ∈ detectTechnologies q) →
        detectTechnologies p = detectTechnologies q := by
  have hs : ∀ r : Project, List.Sorted strLeRel (detectTechnologies r) := by
    intro r
    unfold detectTechnologies pySorted
    exact List.sorted_insertionSort strLeRel _
  have hn : ∀ r : Project, (detectTechnologies r).Nodup := by
    intro r
    unfold detectTechnologies pySorted
    exact ((List.perm_insertionSort strLeRel _).nodup_iff).2 (List.nodup_dedup _)
  refine ⟨hs p, hn p, fun t ht => detectTechnologies_lexicon ht, fun q hpq => ?_⟩
  have hperm : List.Perm (detectTechnologies p) (detectTechnologies q) :=
    (List.perm_ext_iff_of_nodup (hn p) (hn q)).2 hpq
  exact List.eq_of_perm_of_sorted hperm (hs p) (hs q)

set_option maxRecDepth 40000 in
/-- Witness for C5: two records declaring {python, javascript} through
different alias spellings and orders yield the identical canonical list. -/
theorem detect_canonical_sorted_lexicon_witness :
    detectTechnologies projDeclared = detectTechnologies projAliased := by
  have he : detectTechnologies projDeclared = detectTechnologies projAliased := by decide
  exact (detect_canonical_sorted_lexicon projDeclared).2.2.2 projAliased fun t => by rw [he]

set_option maxRecDepth 10000 in
/-- C6 counterexample: the claim says `None` is returned only when all four
stages fail, but the empty token returns `None` up front even though the
substring-containment stage matches it (the empty string is a substring of
every canonical name, so stage 4 would return the first lexicon key). -/
theorem resolve_empty_token_defies_stage_order :
    normalizeTechName "" = none ∧ normStage4 "" = some "python" := by
  constructor
  · rfl
  · decide

set_option maxRecDepth 40000 in
/-- C6 (amended): on every non-empty token, resolution tries, in order,
exact lowercase match, alias-table lookup, exact match after stripping
digits and punctuation, and bidirectional substring containment against
the canonical names (first match wins), returning `None` exactly when all
four stages fail; the empty token short-circuits to `None`; and
resolve("js") = "javascript", resolve("py") = "python",
resolve("k8s") = "kubernetes", resolve("python3.9") = "python". -/
theorem resolve_match_order (t : String) (ht : t ≠ "") :
    (normalizeTechName t =
      (match normStage1 (pyLower (pyStrip t)) with
       | some r => some r
       | none =>
         match normStage2 (pyLower (pyStrip t)) with
         | some r => some r
         | none =>
           match normStage3 (pyLower (pyStrip t)) with
           | some r => some r
           | none => normStage4 (pyLower (pyStrip t))))
    ∧ (normalizeTechName t = none ↔
        normStage1 (pyLower (pyStrip t)) = none ∧ normStage2 (pyLower (pyStrip t)) = none ∧
        normStage3 (pyLower (pyStrip t)) = none ∧ normStage4 (pyLower (pyStrip t)) = none)
    ∧ normalizeTechName "js" = some "javascript"
    ∧ normalizeTechName "py" = some "python"
    ∧ normalizeTechName "k8s" = some "kubernetes"
    ∧ normalizeTechName "python3.9" = some "python" := by
  have hchain : normalizeTechName t =
      (match normStage1 (pyLower (pyStrip t)) with
       | some r => some r
       | none =>
         match normStage2 (pyLower (pyStrip t)) with
         | some r => some r
         | none =>
           match normStage3 (pyLower (pyStrip t)) with
           | some r => some r
           | none => normStage4 (pyLower (pyStrip t))) := by
    unfold normalizeTechName normStage1 normStage2 normStage3
    rw [if_neg ht]
    by_cases h1 : (sLookup techDefinitions (pyLower (pyStrip t))).isSome
    · rw [if_pos h1, if_pos h1]
    · rw [if_neg h1, if_neg h1]
      cases h2 : sLookup techAliases (pyLower (pyStrip t)) with
      | some c => rfl
      | none =>
        dsimp only
        by_cases h3 : (decide (cleanTechName (pyLower (pyStrip t)) ≠ "") &&
            (sLookup techDefinitions (cleanTechName (pyLower (pyStrip t)))).isSome) = true
        · rw [if_pos h3, if_pos h3]
        · rw [if_neg h3, if_neg h3]
  refine ⟨hchain, ?_, by decide, by decide, by decide, by decide⟩
  rw [hchain]
  cases e1 : normStage1 (pyLower (pyStrip t)) with
  | some r => simp [e1]
  | none =>
    cases e2 : normStage2 (pyLower (pyStrip t)) with
    | some r => simp [e2]
    | none =>
      cases e3 : normStage3 (pyLower (pyStrip t)) with
      | some r => simp [e3]
      | none => simp

/-- Witness for C6 at a concrete non-empty token. -/
theorem resolve_match_order_witness :
    normalizeTechName "python3.9" = some "python" :=
  (resolve_match_order "python3.9" (by decide)).2.2.2.2.2

/-- C9 counterexample: on a four-sentence text the summary is not "first
⌈3/2⌉+1 = 3 sentences plus last ⌊3/2⌋ = 1 sentence" — the code keeps only
the first ⌊3/2⌋+1 = 2. -/
theorem summary_not_first_three_plus_last_one :
    generateSummary ["Alpha.", "Beta.", "Gamma.", "Delta."] 3
      ≠ spaceJoin (["Alpha.", "Beta.", "Gamma.", "Delta."].take 3
          ++ lastSlice ["Alpha.", "Beta.", "Gamma.", "Delta."] 1) := by decide

/-- C9 (amended): with the 3-sentence limit, a text of at most 3 sentences
is returned whole (all sentences joined); a longer text keeps exactly the
first ⌊3/2⌋+1 = 2 sentences followed by the last ⌊3/2⌋ = 1 sentence. -/
theorem summary_shape (l : List String) :
    (l.length ≤ 3 → generateSummary l 3 = spaceJoin l)
    ∧ (3 < l.length → generateSummary l 3 = spaceJoin (l.take 2 ++ lastSlice l 1)) := by
  constructor
  · intro h
    unfold generateSummary
    by_cases he : l = []
    · subst he; rfl
    · rw [if_neg he, if_pos h]
  · intro h
    have he : l ≠ [] := by
      intro hx
      subst hx
      simp at h
    unfold generateSummary
    rw [if_neg he, if_neg (by omega)]

/-- Witness for C9 on a concrete four-sentence text. -/
theorem summary_shape_witness :
    generateSummary ["Alpha.", "Beta.", "Gamma.", "Delta."] 3
      = spaceJoin (["Alpha.", "Beta.", "Gamma.", "Delta."].take 2
          ++ lastSlice ["Alpha.", "Beta.", "Gamma.", "Delta."] 1) :=
  (summary_shape ["Alpha.", "Beta.", "Gamma.", "Delta."]).2 (by decide)

/-- C7: empty or whitespace-only text makes the NLP analyzer return the
zeroed/neutral result (word and sentence counts 0, sentiment 0 "neutral",
empty entity and topic lists, readability 0) without raising, and a
project whose combined cleaned text is empty makes the classifier return
name "unknown" with confidence 0 for every possible model — the model is
never consulted. -/
theorem empty_text_neutral_results :
    (∀ (nlpFull : String → Dict) (text : String), pyStrip text = "" →
      analyzeText nlpFull text = emptyAnalysisResult)
    ∧ sLookup (dGetDict emptyAnalysisResult "basic") "word_count" = some (.num 0)
    ∧ sLookup (dGetDict emptyAnalysisResult "basic") "sentence_count" = some (.num 0)
    ∧ sLookup (dGetDict emptyAnalysisResult "sentiment") "score" = some (.num 0)
    ∧ sLookup (dGetDict emptyAnalysisResult "sentiment") "label" = some (.str "neutral")
    ∧ sLookup (dGetDict emptyAnalysisResult "entities") "list" = some (.list [])
    ∧ sLookup (dGetDict emptyAnalysisResult "topics") "list" = some (.list [])
    ∧ sLookup (dGetDict emptyAnalysisResult "readability") "score" = some (.num 0)
    ∧ (∀ (modelBranch : String → Dict) (p : Project), extractTextFeaturesC p = "" →
        classifierPredict modelBranch p = unknownPrediction)
    ∧ sLookup unknownPrediction "name" = some (.str "unknown")
    ∧ sLookup unknownPrediction "confidence" = some (.num 0) := by
  refine ⟨?_, rfl, rfl, rfl, rfl, rfl, rfl, rfl, ?_, rfl, rfl⟩
  · intro f text hstrip
    unfold analyzeText
    by_cases he : text = ""
    · rw [if_pos he]
    · rw [if_neg he, if_pos hstrip]
  · intro mb p hempty
    unfold classifierPredict
    rw [hempty, if_neg (by decide)]

/-- Witness for C7 at whitespace-only text and the all-empty project. -/
theorem empty_text_neutral_results_witness :
    analyzeText (fun _ => []) "   " = emptyAnalysisResult
    ∧ classifierPredict (fun _ => []) emptyProject = unknownPrediction :=
  ⟨empty_text_neutral_results.1 (fun _ => []) "   " (by decide),
   empty_text_neutral_results.2.2.2.2.2.2.2.2.1 (fun _ => []) emptyProject (by decide)⟩


/-- C4 (amended): no exception propagates and a fully-populated result is
always returned, but only a failure of the Base computation (or of
`calculate_project_score` itself) yields the all-dimensions-50 default
with an `error` marker in its detail trace; the Advanced algorithm falls
back to its unadjusted Base result on an adjustment failure, and the
ML-based algorithm falls back to the Advanced result on an internal
failure. -/
theorem exception_fallback_policy :
    (∀ (n v : String) (analysis : Dict),
      baseCalculateScore true n v analysis = defaultScoringResult n v)
    ∧ (∀ n v : String,
        (defaultScoringResult n v).quality_score = 50
        ∧ (defaultScoringResult n v).innovation_score = 50
        ∧ (defaultScoringResult n v).feasibility_score = 50
        ∧ (defaultScoringResult n v).business_value_score = 50
        ∧ (defaultScoringResult n v).overall_score = 50
        ∧ (sLookup (defaultScoringResult n v).scoring_details "error").isSome)
    ∧ (∀ (fb : Bool) (analysis : Dict),
        advancedCalculateScore true fb analysis = baseCalculateScore fb "advanced" "2.0.0" analysis)
    ∧ (∀ (l a b : Bool) (analysis : Dict),
        mlCalculateScore true l a b analysis = advancedCalculateScore a b analysis)
    ∧ (∀ (M : ExternalModels) (bb ba bm bl : Bool) (p : Project) (alg : ScoringAlg)
        (w : Option (List (String × ℚ))),
        calculateProjectScore M ⟨bb, ba, bm, bl, true⟩ p alg w = errorFallbackResult)
    ∧ (errorFallbackResult.quality_score = 50 ∧ errorFallbackResult.overall_score = 50
        ∧ (sLookup errorFallbackResult.scoring_details "error").isSome) := by
  exact ⟨fun n v analysis => rfl,
    fun n v => ⟨rfl, rfl, rfl, rfl, rfl, rfl⟩,
    fun fb analysis => rfl,
    fun l a b analysis => rfl,
    fun M bb ba bm bl p alg w => rfl,
    rfl, rfl, rfl⟩

/-- C2 counterexample: the empty caller-supplied weight map has value sum
0 — off from 1 by more than 0.01 — yet it passes validation, because the
validator's `if v:` treats the (falsy) empty dict as absent. -/
theorem empty_weight_map_accepted :
    validateWeights (some ([] : List (String × ℚ))) = true
    ∧ |((([] : List (String × ℚ)).map fun kv => kv.2).sum - 1)| > 1/100 := by
  constructor
  · rfl
  · norm_num

/-- C2 (amended): a non-empty caller-supplied weight map is rejected
exactly when its value sum differs from 1 by more than 0.01; an absent or
empty weight map is accepted without any check, and the empty map is
treated by the scoring entry point exactly as an absent one — no
renormalization ever happens. -/
theorem weight_validation_policy (w : List (String × ℚ)) (hw : w ≠ []) :
    (validateWeights (some w) = false ↔ |(w.map fun kv => kv.2).sum - 1| > 1/100)
    ∧ validateWeights none = true
    ∧ validateWeights (some ([] : List (String × ℚ))) = true
    ∧ (∀ (M : ExternalModels) (flags : FailFlags) (p : Project) (alg : ScoringAlg),
        calculateProjectScore M flags p alg (some []) = calculateProjectScore M flags p alg none) := by
  refine ⟨?_, rfl, rfl, fun M flags p alg => ?_⟩
  · unfold validateWeights
    have hne : (!w.isEmpty) = true := by
      cases w with
      | nil => exact absurd rfl hw
      | cons kv rest => rfl
    show (if (!w.isEmpty) = true then decide (|(List.map (fun kv => kv.2) w).sum - 1| ≤ 1 / 100)
        else true) = false ↔ _
    rw [if_pos hne, decide_eq_false_iff_not]
    exact not_le
  · unfold calculateProjectScore
    by_cases htop : flags.top = true
    · rw [if_pos htop, if_pos htop]
    · rw [if_neg htop, if_neg htop]
      rfl

/-- Witness for C2: the rejection criterion instantiated at a concrete
singleton weight map (its sum, 2, is out of tolerance). -/
theorem weight_validation_policy_witness :
    validateWeights (some [(("quality" : String), (2 : ℚ))]) = false
      ↔ |(([(("quality" : String), (2 : ℚ))].map fun kv => kv.2).sum - 1)| > 1/100 :=
  (weight_validation_policy [("quality", 2)] (by simp)).1

/-! ### Concrete evaluation of the pipeline on the all-empty project -/

/-- The feature map `extract_features` produces for the all-empty project. -/
def emptyFeaturesList : List (String × ℚ) :=
  [("text_length", 0), ("word_count", 0), ("sentence_count", 1), ("vocabulary_size", 0),
   ("lexical_diversity", 0), ("avg_word_length", 0), ("readability_score", 0), ("tech_count", 0),
   ("tech_diversity", 0), ("tech_category_count", 0), ("popular_tech_ratio", 0),
   ("metadata_field_count", 0), ("metadata_text_length", 0), ("metadata_numeric_count", 0),
   ("quality_score_code", 0), ("quality_score_architecture", 0), ("quality_score_documentation", 0),
   ("quality_score_testing", 0), ("quality_score_security", 0), ("overall_quality_score", 0),
   ("innovation_score_novelty", 0), ("innovation_score_complexity", 0),
   ("innovation_score_automation", 0), ("overall_innovation_score", 0),
   ("business_score_market", 0), ("business_score_user", 0), ("business_score_scale", 0),
   ("overall_business_score", 0), ("tech_complexity", 0), ("text_complexity", 0),
   ("metadata_complexity", 0), ("overall_complexity", 0), ("project_size", 0),
   ("maturity_score", 0), ("risk_score", 0), ("feasibility_score", 1/2),
   ("maintainability_score", 0), ("innovation_potential", 0)]

set_option maxRecDepth 4000 in
theorem extractFeatures_empty :
    extractFeatures fixedModels.sqrtM emptyProject = emptyFeaturesList := by
  simp [extractFeatures, extractTextFeatures, extractTechFeatures, extractMetadataFeatures,
    extractKeywordFeatures, extractComplexityFeatures, calcDerivedFeatures, mergeFeatures,
    aDictSet, sLookup, stringMetaValues, emptyProject, fixedModels, spaceJoin, pySplitWs,
    pyLower, charRuns, sentenceSplitCount, qMean, distinctCount, keywordScores,
    qualityKeywords, innovationKeywords, businessKeywords, strContains, feCategorize,
    feCategoryMap, popularTechList, emptyFeaturesList]
  norm_num

theorem numEntries_numDict (l : List (String × ℚ)) : numEntries (numDict l) = l := by
  induction l with
  | nil => rfl
  | cons kv rest ih => simp [numEntries, numDict] at ih ⊢; exact ih

set_option maxRecDepth 4000 in
theorem analyzeProject_empty_reads :
    featuresOf (analyzeProject fixedModels emptyProject) = emptyFeaturesList
    ∧ techMaturityOf (analyzeProject fixedModels emptyProject) = 0
    ∧ outdatedListOf (analyzeProject fixedModels emptyProject) = []
    ∧ categoryNameOf (analyzeProject fixedModels emptyProject) = "unknown"
    ∧ riskLevelOf (analyzeProject fixedModels emptyProject) = "low"
    ∧ sentimentOf (analyzeProject fixedModels emptyProject) = 0 := by
  have hdet : detectTechnologies emptyProject = [] := by decide
  have htext : extractTextFeaturesC emptyProject = "" := by decide
  refine ⟨?_, ?_, ?_, ?_, ?_, ?_⟩
  · simp [featuresOf, analyzeProject, dGetDict, sLookup, numEntries_numDict, extractFeatures_empty]
  · simp [techMaturityOf, analyzeProject, analyzeTechStack, hdet, analyzeTechFeatures,
      dGetDict, dGetNumD, sLookup]
  · simp [outdatedListOf, analyzeProject, analyzeTechStack, hdet, analyzeTechFeatures,
      dGetDict, dGetList, sLookup]
  · simp [categoryNameOf, analyzeProject, classifierPredict, htext, unknownPrediction,
      dGetDict, dGetStrD, sLookup]
  · simp [riskLevelOf, analyzeProject, assessRisks, analyzeTechStack, hdet, analyzeTechFeatures,
      extractFeatures_empty, emptyFeaturesList, dGetDict, dGetStrD, dGetList, sLookup]
  · simp [sentimentOf, analyzeProject, emptyProject, dGetDict, dGetNumD, sLookup]

set_option maxRecDepth 4000 in
theorem empty_base_dims :
    qualityScore emptyFeaturesList (analyzeProject fixedModels emptyProject) = 40
    ∧ innovationScore emptyFeaturesList (analyzeProject fixedModels emptyProject) = 55
    ∧ feasibilityScore emptyFeaturesList (analyzeProject fixedModels emptyProject) = 115/2
    ∧ businessValueScore emptyFeaturesList (analyzeProject fixedModels emptyProject) = 50 := by
  obtain ⟨hf, hm, ho, hc, hr, hs⟩ := analyzeProject_empty_reads
  refine ⟨?_, ?_, ?_, ?_⟩
  · simp [qualityScore, hm, sLookup, emptyFeaturesList, clampScore]
    norm_num
  · simp [innovationScore, ho, hc, sLookup, emptyFeaturesList, clampScore, innovationCategories]
    norm_num
  · simp [feasibilityScore, hm, hr, sLookup, emptyFeaturesList, clampScore]
    norm_num
  · simp [businessValueScore, hc, hs, sLookup, emptyFeaturesList, clampScore, businessCategories]
    norm_num

theorem empty_run_dims :
    (runScoringAlgorithm noFailure .basic (analyzeProject fixedModels emptyProject)).quality_score = 40
    ∧ (runScoringAlgorithm noFailure .basic (analyzeProject fixedModels emptyProject)).innovation_score = 55
    ∧ (runScoringAlgorithm noFailure .basic (analyzeProject fixedModels emptyProject)).feasibility_score = 115/2
    ∧ (runScoringAlgorithm noFailure .basic (analyzeProject fixedModels emptyProject)).business_value_score = 50 := by
  obtain ⟨hq, hi, hf, hb⟩ := empty_base_dims
  have hfeat := analyzeProject_empty_reads.1
  refine ⟨?_, ?_, ?_, ?_⟩
  · show qualityScore (featuresOf (analyzeProject fixedModels emptyProject)) _ = 40
    rw [hfeat]; exact hq
  · show innovationScore (featuresOf (analyzeProject fixedModels emptyProject)) _ = 55
    rw [hfeat]; exact hi
  · show feasibilityScore (featuresOf (analyzeProject fixedModels emptyProject)) _ = 115/2
    rw [hfeat]; exact hf
  · show businessValueScore (featuresOf (analyzeProject fixedModels emptyProject)) _ = 50
    rw [hfeat]; exact hb

/-- C4 counterexample: an internal exception in the Advanced algorithm's
adjustment pass does not yield the all-50 default — the unadjusted Base
result is returned; on the all-empty project its innovation score is 55
(the unconditional no-outdated-tech bonus), not 50. -/
theorem advanced_failure_keeps_base_scores :
    (advancedCalculateScore true false (analyzeProject fixedModels emptyProject)).innovation_score
      ≠ 50 := by
  have h : (advancedCalculateScore true false (analyzeProject fixedModels emptyProject)).innovation_score
      = innovationScore (featuresOf (analyzeProject fixedModels emptyProject))
          (analyzeProject fixedModels emptyProject) := rfl
  rw [h, analyzeProject_empty_reads.1, empty_base_dims.2.1]
  norm_num

/-- The weight map used to push the overall score out of range: it passes
validation (its values sum to exactly 1) but contains a negative entry. -/
def escapingWeights : List (String × ℚ) := [("quality", 20), ("innovation", -19)]

/-- C1 counterexample: a caller weight map that passes validation drives
the recomputed overall score of the all-empty project below 0 (the
sum-only validator accepts arbitrary individual weights, and the
post-construction assignment to `overall_score` is not re-validated). -/
theorem overall_score_escapes_range :
    validateWeights (some escapingWeights) = true
    ∧ (calculateProjectScore fixedModels noFailure emptyProject .basic
        (some escapingWeights)).overall_score < 0 := by
  constructor
  · simp [validateWeights, escapingWeights]
    norm_num
  · have hov : (calculateProjectScore fixedModels noFailure emptyProject .basic
        (some escapingWeights)).overall_score
        = calcOverallScore
            (runScoringAlgorithm noFailure .basic (analyzeProject fixedModels emptyProject)).quality_score
            (runScoringAlgorithm noFailure .basic (analyzeProject fixedModels emptyProject)).innovation_score
            (runScoringAlgorithm noFailure .basic (analyzeProject fixedModels emptyProject)).feasibility_score
            (runScoringAlgorithm noFailure .basic (analyzeProject fixedModels emptyProject)).business_value_score
            (some escapingWeights) := rfl
    obtain ⟨hq, hi, hf, hb⟩ := empty_run_dims
    rw [hov, hq, hi, hf, hb]
    have hval : calcOverallScore 40 55 (115/2) 50 (some escapingWeights)
        = pyRound2 (-1745/8) := by
      simp [calcOverallScore, weightOf, sLookup, escapingWeights]
      norm_num
    rw [hval]
    have h2 : roundHalfEven (100 * (-1745/8 : ℚ)) ≤ (-21812 : ℤ) :=
      roundHalfEven_le (by norm_num)
    have h3 : ((roundHalfEven (100 * (-1745/8 : ℚ)) : ℤ) : ℚ) ≤ -21812 := by exact_mod_cast h2
    unfold pyRound2
    linarith

/-- The weight map exposing the two-decimal rounding of the overall. -/
def roundingWeights : List (String × ℚ) :=
  [("quality", 333/1000), ("innovation", 333/1000),
   ("feasibility", 333/1000), ("business_value", 1/1000)]

/-- C3 counterexample: with a validated weight map (its values sum to
exactly 1) the returned overall differs from the exact weighted sum of
the returned dimension scores — the code rounds to two decimals
(50.83 vs 50.8325 on the all-empty project). -/
theorem overall_not_exact_weighted_sum :
    validateWeights (some roundingWeights) = true
    ∧ (calculateProjectScore fixedModels noFailure emptyProject .basic
          (some roundingWeights)).overall_score
      ≠ (calculateProjectScore fixedModels noFailure emptyProject .basic
          (some roundingWeights)).quality_score * (333/1000)
        + (calculateProjectScore fixedModels noFailure emptyProject .basic
            (some roundingWeights)).innovation_score * (333/1000)
        + (calculateProjectScore fixedModels noFailure emptyProject .basic
            (some roundingWeights)).feasibility_score * (333/1000)
        + (calculateProjectScore fixedModels noFailure emptyProject .basic
            (some roundingWeights)).business_value_score * (1/1000) := by
  obtain ⟨hq, hi, hf, hb⟩ := empty_run_dims
  constructor
  · simp [validateWeights, roundingWeights]
    norm_num
  · have hproj : ∀ r : ScoringResult, ∀ x : ℚ, ∀ d : Dict,
        ({ r with overall_score := x, scoring_details := d } : ScoringResult).quality_score
          = r.quality_score := fun r x d => rfl
    have hov : (calculateProjectScore fixedModels noFailure emptyProject .basic
        (some roundingWeights)).overall_score
        = calcOverallScore
            (runScoringAlgorithm noFailure .basic (analyzeProject fixedModels emptyProject)).quality_score
            (runScoringAlgorithm noFailure .basic (analyzeProject fixedModels emptyProject)).innovation_score
            (runScoringAlgorithm noFailure .basic (analyzeProject fixedModels emptyProject)).feasibility_score
            (runScoringAlgorithm noFailure .basic (analyzeProject fixedModels emptyProject)).business_value_score
            (some roundingWeights) := rfl
    have hdq : (calculateProjectScore fixedModels noFailure emptyProject .basic
        (some roundingWeights)).quality_score = 40 := hq
    have hdi : (calculateProjectScore fixedModels noFailure emptyProject .basic
        (some roundingWeights)).innovation_score = 55 := hi
    have hdf : (calculateProjectScore fixedModels noFailure emptyProject .basic
        (some roundingWeights)).feasibility_score = 115/2 := hf
    have hdb : (calculateProjectScore fixedModels noFailure emptyProject .basic
        (some roundingWeights)).business_value_score = 50 := hb
    rw [hov, hq, hi, hf, hb, hdq, hdi, hdf, hdb]
    have hval : calcOverallScore 40 55 (115/2) 50 (some roundingWeights)
        = pyRound2 (20333/400) := by
      simp [calcOverallScore, weightOf, sLookup, roundingWeights]
      norm_num
    have hround : pyRound2 (20333/400 : ℚ) = 5083/100 := by
      have hfl : ⌊(100 * (20333/400 : ℚ))⌋ = 5083 := by norm_num
      unfold pyRound2 roundHalfEven
      rw [hfl]
      norm_num
    rw [hval, hround]
    norm_num

/-! ### Range lemmas for the amended C1 -/

theorem max0min100_nonneg (x : ℚ) : 0 ≤ max 0 (min 100 x) := le_max_left 0 _

theorem max0min100_le (x : ℚ) : max 0 (min 100 x) ≤ 100 :=
  max_le (by norm_num) (min_le_left _ _)

/-- All five scores of a result lie in [0, 100]. -/
def resultInRange (r : ScoringResult) : Prop :=
  0 ≤ r.quality_score ∧ r.quality_score ≤ 100
  ∧ 0 ≤ r.innovation_score ∧ r.innovation_score ≤ 100
  ∧ 0 ≤ r.feasibility_score ∧ r.feasibility_score ≤ 100
  ∧ 0 ≤ r.business_value_score ∧ r.business_value_score ≤ 100
  ∧ 0 ≤ r.overall_score ∧ r.overall_score ≤ 100

theorem calcOverallScore_none_in_range {q i f b : ℚ}
    (hq0 : 0 ≤ q) (hq1 : q ≤ 100) (hi0 : 0 ≤ i) (hi1 : i ≤ 100)
    (hf0 : 0 ≤ f) (hf1 : f ≤ 100) (hb0 : 0 ≤ b) (hb1 : b ≤ 100) :
    0 ≤ calcOverallScore q i f b none ∧ calcOverallScore q i f b none ≤ 100 := by
  unfold calcOverallScore
  exact ⟨pyRound2_nonneg (by linarith), pyRound2_le_hundred (by linarith)⟩

theorem defaultScoringResult_in_range (n v : String) :
    resultInRange (defaultScoringResult n v) := by
  unfold resultInRange defaultScoringResult
  norm_num

theorem baseCalculateScore_in_range (fail : Bool) (n v : String) (analysis : Dict) :
    resultInRange (baseCalculateScore fail n v analysis) := by
  cases fail with
  | true => exact defaultScoringResult_in_range n v
  | false =>
    unfold baseCalculateScore baseCalculateScoreBody resultInRange
    simp only [Bool.false_eq_true, if_false]
    refine ⟨clampScore_nonneg _, clampScore_le _, clampScore_nonneg _, clampScore_le _,
      clampScore_nonneg _, clampScore_le _, clampScore_nonneg _, clampScore_le _, ?_, ?_⟩
    · exact (calcOverallScore_none_in_range (clampScore_nonneg _) (clampScore_le _)
        (clampScore_nonneg _) (clampScore_le _) (clampScore_nonneg _) (clampScore_le _)
        (clampScore_nonneg _) (clampScore_le _)).1
    · exact (calcOverallScore_none_in_range (clampScore_nonneg _) (clampScore_le _)
        (clampScore_nonneg _) (clampScore_le _) (clampScore_nonneg _) (clampScore_le _)
        (clampScore_nonneg _) (clampScore_le _)).2

theorem advancedCalculateScore_in_range (failAdj failBase : Bool) (analysis : Dict) :
    resultInRange (advancedCalculateScore failAdj failBase analysis) := by
  cases failAdj with
  | true => exact baseCalculateScore_in_range failBase "advanced" "2.0.0" analysis
  | false =>
    unfold advancedCalculateScore
    simp only [Bool.false_eq_true, if_false]
    unfold applyAdvancedAdjustments resultInRange
    refine ⟨max0min100_nonneg _, max0min100_le _, max0min100_nonneg _, max0min100_le _,
      max0min100_nonneg _, max0min100_le _, max0min100_nonneg _, max0min100_le _, ?_, ?_⟩
    · exact (calcOverallScore_none_in_range (max0min100_nonneg _) (max0min100_le _)
        (max0min100_nonneg _) (max0min100_le _) (max0min100_nonneg _) (max0min100_le _)
        (max0min100_nonneg _) (max0min100_le _)).1
    · exact (calcOverallScore_none_in_range (max0min100_nonneg _) (max0min100_le _)
        (max0min100_nonneg _) (max0min100_le _) (max0min100_nonneg _) (max0min100_le _)
        (max0min100_nonneg _) (max0min100_le _)).2

theorem mlCalculateScore_in_range (failMl mlLoadFail failAdj failBase : Bool) (analysis : Dict) :
    resultInRange (mlCalculateScore failMl mlLoadFail failAdj failBase analysis) := by
  cases failMl with
  | true => exact advancedCalculateScore_in_range failAdj failBase analysis
  | false =>
    unfold mlCalculateScore
    simp only [Bool.false_eq_true, if_false]
    cases mlLoadFail with
    | true =>
      have h := advancedCalculateScore_in_range failAdj failBase analysis
      unfold resultInRange at h ⊢
      simp only [if_true]
      obtain ⟨a1, a2, a3, a4, a5, a6, a7, a8, _, _⟩ := h
      exact ⟨a1, a2, a3, a4, a5, a6, a7, a8,
        (calcOverallScore_none_in_range a1 a2 a3 a4 a5 a6 a7 a8).1,
        (calcOverallScore_none_in_range a1 a2 a3 a4 a5 a6 a7 a8).2⟩
    | false =>
      unfold simulateMlPrediction resultInRange
      simp only [Bool.false_eq_true, if_false]
      refine ⟨max0min100_nonneg _, max0min100_le _, max0min100_nonneg _, max0min100_le _,
        max0min100_nonneg _, max0min100_le _, max0min100_nonneg _, max0min100_le _, ?_, ?_⟩
      · exact (calcOverallScore_none_in_range (max0min100_nonneg _) (max0min100_le _)
          (max0min100_nonneg _) (max0min100_le _) (max0min100_nonneg _) (max0min100_le _)
          (max0min100_nonneg _) (max0min100_le _)).1
      · exact (calcOverallScore_none_in_range (max0min100_nonneg _) (max0min100_le _)
          (max0min100_nonneg _) (max0min100_le _) (max0min100_nonneg _) (max0min100_le _)
          (max0min100_nonneg _) (max0min100_le _)).2

theorem runScoringAlgorithm_in_range (flags : FailFlags) (alg : ScoringAlg) (analysis : Dict) :
    resultInRange (runScoringAlgorithm flags alg analysis) := by
  cases alg with
  | basic => exact baseCalculateScore_in_range flags.base "base" "1.0.0" analysis
  | advanced => exact advancedCalculateScore_in_range flags.adv flags.base analysis
  | ml_based => exact mlCalculateScore_in_range flags.ml flags.mlLoad flags.adv flags.base analysis

theorem errorFallbackResult_in_range : resultInRange errorFallbackResult := by
  unfold resultInRange errorFallbackResult
  norm_num

theorem calculateProjectScore_top_eq (M : ExternalModels) (flags : FailFlags) (p : Project)
    (alg : ScoringAlg) (w : Option (List (String × ℚ))) (htop : flags.top = true) :
    calculateProjectScore M flags p alg w = errorFallbackResult := by
  unfold calculateProjectScore
  rw [if_pos htop]

theorem calculateProjectScore_none_eq (M : ExternalModels) (flags : FailFlags) (p : Project)
    (alg : ScoringAlg) (htop : flags.top = false) :
    calculateProjectScore M flags p alg none
      = runScoringAlgorithm flags alg (analyzeProject M p) := by
  unfold calculateProjectScore
  rw [if_neg (by simp [htop])]

theorem calculateProjectScore_dims (M : ExternalModels) (flags : FailFlags) (p : Project)
    (alg : ScoringAlg) (w : Option (List (String × ℚ))) (htop : flags.top = false) :
    (calculateProjectScore M flags p alg w).quality_score
        = (runScoringAlgorithm flags alg (analyzeProject M p)).quality_score
    ∧ (calculateProjectScore M flags p alg w).innovation_score
        = (runScoringAlgorithm flags alg (analyzeProject M p)).innovation_score
    ∧ (calculateProjectScore M flags p alg w).feasibility_score
        = (runScoringAlgorithm flags alg (analyzeProject M p)).feasibility_score
    ∧ (calculateProjectScore M flags p alg w).business_value_score
        = (runScoringAlgorithm flags alg (analyzeProject M p)).business_value_score := by
  unfold calculateProjectScore
  rw [if_neg (by simp [htop])]
  cases w with
  | none => exact ⟨rfl, rfl, rfl, rfl⟩
  | some l =>
    by_cases h : (!l.isEmpty) = true
    · dsimp only
      rw [if_pos h]
      exact ⟨rfl, rfl, rfl, rfl⟩
    · dsimp only
      rw [if_neg h]
      exact ⟨rfl, rfl, rfl, rfl⟩

/-- C1 (amended): every dimension score lies in [0, 100] on every path of
all three algorithms — including every injected-failure path — and the
overall score lies in [0, 100] whenever no caller-supplied weight map is
applied (default equal weights, error fallbacks included).  When a
validated caller weight map is applied, the four dimension scores are
still in [0, 100] but the recomputed overall score need not be:
validation bounds only the sum of the weights, and negative or large
individual weights push the overall outside [0, 100] (see the
counterexample). -/
theorem scoring_scores_in_range :
    (∀ (flags : FailFlags) (alg : ScoringAlg) (analysis : Dict),
      resultInRange (runScoringAlgorithm flags alg analysis))
    ∧ (∀ (M : ExternalModels) (flags : FailFlags) (p : Project) (alg : ScoringAlg),
        resultInRange (calculateProjectScore M flags p alg none))
    ∧ (∀ (M : ExternalModels) (flags : FailFlags) (p : Project) (alg : ScoringAlg)
        (w : Option (List (String × ℚ))),
        0 ≤ (calculateProjectScore M flags p alg w).quality_score
        ∧ (calculateProjectScore M flags p alg w).quality_score ≤ 100
        ∧ 0 ≤ (calculateProjectScore M flags p alg w).innovation_score
        ∧ (calculateProjectScore M flags p alg w).innovation_score ≤ 100
        ∧ 0 ≤ (calculateProjectScore M flags p alg w).feasibility_score
        ∧ (calculateProjectScore M flags p alg w).feasibility_score ≤ 100
        ∧ 0 ≤ (calculateProjectScore M flags p alg w).business_value_score
        ∧ (calculateProjectScore M flags p alg w).business_value_score ≤ 100) := by
  refine ⟨runScoringAlgorithm_in_range, ?_, ?_⟩
  · intro M flags p alg
    cases hflags : flags.top with
    | true =>
      rw [calculateProjectScore_top_eq M flags p alg none hflags]
      exact errorFallbackResult_in_range
    | false =>
      rw [calculateProjectScore_none_eq M flags p alg hflags]
      exact runScoringAlgorithm_in_range flags alg (analyzeProject M p)
  · intro M flags p alg w
    cases hflags : flags.top with
    | true =>
      rw [calculateProjectScore_top_eq M flags p alg w hflags]
      unfold errorFallbackResult
      norm_num
    | false =>
      obtain ⟨a1, a2, a3, a4, a5, a6, a7, a8, _, _⟩ :=
        runScoringAlgorithm_in_range flags alg (analyzeProject M p)
      obtain ⟨e1, e2, e3, e4⟩ := calculateProjectScore_dims M flags p alg w hflags
      rw [e1, e2, e3, e4]
      exact ⟨a1, a2, a3, a4, a5, a6, a7, a8⟩

/-! ### Overall-score shape lemmas for the amended C3 -/

theorem calcOverallScore_none_eq (q i f b : ℚ) :
    calcOverallScore q i f b none
      = pyRound2 (q * (1/4) + i * (1/4) + f * (1/4) + b * (1/4)) := rfl

theorem default_overall_eq (n v : String) :
    (defaultScoringResult n v).overall_score
      = pyRound2 ((defaultScoringResult n v).quality_score * (1/4)
        + (defaultScoringResult n v).innovation_score * (1/4)
        + (defaultScoringResult n v).feasibility_score * (1/4)
        + (defaultScoringResult n v).business_value_score * (1/4)) := by
  show (50 : ℚ) = pyRound2 ((50 : ℚ) * (1/4) + (50 : ℚ) * (1/4)
    + (50 : ℚ) * (1/4) + (50 : ℚ) * (1/4))
  norm_num [pyRound2, roundHalfEven]

theorem baseCalculateScore_overall (fail : Bool) (n v : String) (analysis : Dict) :
    (baseCalculateScore fail n v analysis).overall_score
      = pyRound2 ((baseCalculateScore fail n v analysis).quality_score * (1/4)
        + (baseCalculateScore fail n v analysis).innovation_score * (1/4)
        + (baseCalculateScore fail n v analysis).feasibility_score * (1/4)
        + (baseCalculateScore fail n v analysis).business_value_score * (1/4)) := by
  cases fail with
  | true =>
    unfold baseCalculateScore
    rw [if_pos rfl]
    exact default_overall_eq n v
  | false => rfl

theorem advancedCalculateScore_overall (failAdj failBase : Bool) (analysis : Dict) :
    (advancedCalculateScore failAdj failBase analysis).overall_score
      = pyRound2 ((advancedCalculateScore failAdj failBase analysis).quality_score * (1/4)
        + (advancedCalculateScore failAdj failBase analysis).innovation_score * (1/4)
        + (advancedCalculateScore failAdj failBase analysis).feasibility_score * (1/4)
        + (advancedCalculateScore failAdj failBase analysis).business_value_score * (1/4)) := by
  cases failAdj with
  | true => exact baseCalculateScore_overall failBase "advanced" "2.0.0" analysis
  | false => rfl

theorem mlCalculateScore_overall (failMl mlLoadFail failAdj failBase : Bool) (analysis : Dict) :
    (mlCalculateScore failMl mlLoadFail failAdj failBase analysis).overall_score
      = pyRound2 ((mlCalculateScore failMl mlLoadFail failAdj failBase analysis).quality_score * (1/4)
        + (mlCalculateScore failMl mlLoadFail failAdj failBase analysis).innovation_score * (1/4)
        + (mlCalculateScore failMl mlLoadFail failAdj failBase analysis).feasibility_score * (1/4)
        + (mlCalculateScore failMl mlLoadFail failAdj failBase analysis).business_value_score * (1/4)) := by
  cases failMl with
  | true => exact advancedCalculateScore_overall failAdj failBase analysis
  | false => rfl

theorem runScoringAlgorithm_overall (flags : FailFlags) (alg : ScoringAlg) (analysis : Dict) :
    (runScoringAlgorithm flags alg analysis).overall_score
      = pyRound2 ((runScoringAlgorithm flags alg analysis).quality_score * (1/4)
        + (runScoringAlgorithm flags alg analysis).innovation_score * (1/4)
        + (runScoringAlgorithm flags alg analysis).feasibility_score * (1/4)
        + (runScoringAlgorithm flags alg analysis).business_value_score * (1/4)) := by
  cases alg with
  | basic => exact baseCalculateScore_overall flags.base "base" "1.0.0" analysis
  | advanced => exact advancedCalculateScore_overall flags.adv flags.base analysis
  | ml_based => exact mlCalculateScore_overall flags.ml flags.mlLoad flags.adv flags.base analysis

/-- C3 (amended): for every non-empty caller weight map w (validated or
not — the engine itself never re-checks the tolerance), the returned
overall score equals the weighted sum of the final dimension scores,
with 0.25 substituted for any of the four weights absent from the map,
ROUNDED half-to-even to two decimals (Python `round(x, 2)`), not the
exact sum; with no weight map supplied the same holds with all four
weights 0.25. -/
theorem overall_is_rounded_weighted_sum (M : ExternalModels) (flags : FailFlags)
    (p : Project) (alg : ScoringAlg) (w : List (String × ℚ))
    (htop : flags.top = false) (hw : w ≠ []) :
    ((calculateProjectScore M flags p alg (some w)).overall_score
      = pyRound2
        ((calculateProjectScore M flags p alg (some w)).quality_score * weightOf w "quality"
        + (calculateProjectScore M flags p alg (some w)).innovation_score * weightOf w "innovation"
        + (calculateProjectScore M flags p alg (some w)).feasibility_score * weightOf w "feasibility"
        + (calculateProjectScore M flags p alg (some w)).business_value_score * weightOf w "business_value"))
    ∧ ((calculateProjectScore M flags p alg none).overall_score
      = pyRound2
        ((calculateProjectScore M flags p alg none).quality_score * (1/4)
        + (calculateProjectScore M flags p alg none).innovation_score * (1/4)
        + (calculateProjectScore M flags p alg none).feasibility_score * (1/4)
        + (calculateProjectScore M flags p alg none).business_value_score * (1/4))) := by
  have hisEmpty : (!w.isEmpty) = true := by
    cases w with
    | nil => exact absurd rfl hw
    | cons a l => rfl
  constructor
  · have heq : calculateProjectScore M flags p alg (some w)
        = { runScoringAlgorithm flags alg (analyzeProject M p) with
            overall_score := calcOverallScore
              (runScoringAlgorithm flags alg (analyzeProject M p)).quality_score
              (runScoringAlgorithm flags alg (analyzeProject M p)).innovation_score
              (runScoringAlgorithm flags alg (analyzeProject M p)).feasibility_score
              (runScoringAlgorithm flags alg (analyzeProject M p)).business_value_score (some w),
            scoring_details := dictSet
              (runScoringAlgorithm flags alg (analyzeProject M p)).scoring_details
              "custom_weights" (.dict (w.map fun kv => (kv.1, DVal.num kv.2))) } := by
      unfold calculateProjectScore
      rw [if_neg (by simp [htop])]
      dsimp only
      rw [if_pos hisEmpty]
    rw [heq]
    show calcOverallScore _ _ _ _ (some w) = _
    unfold calcOverallScore
    dsimp only
    rw [if_pos hisEmpty]
  · rw [calculateProjectScore_none_eq M flags p alg htop]
    exact runScoringAlgorithm_overall flags alg (analyzeProject M p)

/-- Witness for the amended C3 at a concrete run. -/
theorem overall_is_rounded_weighted_sum_witness :
    (calculateProjectScore fixedModels noFailure emptyProject .basic (some roundingWeights)).overall_score
      = pyRound2
        ((calculateProjectScore fixedModels noFailure emptyProject .basic (some roundingWeights)).quality_score
            * weightOf roundingWeights "quality"
        + (calculateProjectScore fixedModels noFailure emptyProject .basic (some roundingWeights)).innovation_score
            * weightOf roundingWeights "innovation"
        + (calculateProjectScore fixedModels noFailure emptyProject .basic (some roundingWeights)).feasibility_score
            * weightOf roundingWeights "feasibility"
        + (calculateProjectScore fixedModels noFailure emptyProject .basic (some roundingWeights)).business_value_score
            * weightOf roundingWeights "business_value") :=
  (overall_is_rounded_weighted_sum fixedModels noFailure emptyProject .basic roundingWeights
    rfl (List.cons_ne_nil _ _)).1

/-! ### The outdated-technology key is never produced (for C8 and C10) -/

theorem analyzeTechFeatures_no_outdated (cohF : List String → ℚ) (detected : List String) :
    sLookup (analyzeTechFeatures cohF detected) "outdated_technologies" = none := by
  unfold analyzeTechFeatures
  by_cases h : detected = []
  · rw [if_pos h]
    simp [sLookup]
  · rw [if_neg h]
    simp [sLookup]

theorem dGetDict_analyzeProject_tech (M : ExternalModels) (p : Project) :
    dGetDict (analyzeProject M p) "tech_stack_analysis" = analyzeTechStack M.cohF p := by
  unfold analyzeProject dGetDict
  simp [sLookup]

theorem dGetDict_analyzeTechStack_analysis (cohF : List String → ℚ) (p : Project) :
    dGetDict (analyzeTechStack cohF p) "analysis"
      = analyzeTechFeatures cohF (detectTechnologies p) := by
  unfold analyzeTechStack dGetDict
  simp [sLookup]

theorem outdatedListOf_analyzeProject (M : ExternalModels) (p : Project) :
    outdatedListOf (analyzeProject M p) = [] := by
  unfold outdatedListOf
  rw [dGetDict_analyzeProject_tech, dGetDict_analyzeTechStack_analysis]
  unfold dGetList
  rw [analyzeTechFeatures_no_outdated]

/-- C8: under the Base algorithm the innovation score is 50 plus
novelty×25, complexity×20, automation×15 (absent features contributing 0),
plus 10 exactly when the predicted category is one of machine_learning /
iot / blockchain / game_development, plus 5 exactly when the analysis
reports no outdated technologies, clamped to [0, 100].  In the actual
pipeline the outdated-technology list of the analysis bundle is always
empty — `_analyze_tech_features` never emits the key — so the +5 always
fires; consistently, no detected technology is ever on the outdated
deny-list (detected names are lexicon keys and no lexicon key is
outdated), so the jquery scenario of the claim cannot arise. -/
theorem innovation_score_formula :
    (∀ (features : List (String × ℚ)) (analysis : Dict),
      innovationScore features analysis
        = clampScore ((50 : ℚ)
          + ((sLookup features "innovation_score_novelty").getD 0) * 25
          + ((sLookup features "innovation_score_complexity").getD 0) * 20
          + ((sLookup features "innovation_score_automation").getD 0) * 15
          + (if categoryNameOf analysis ∈ innovationCategories then 10 else 0)
          + (if (outdatedListOf analysis).isEmpty then 5 else 0)))
    ∧ (∀ (M : ExternalModels) (p : Project),
        outdatedListOf (analyzeProject M p) = [])
    ∧ (∀ (p : Project) (t : String), t ∈ detectTechnologies p → isOutdatedTech t = false) := by
  refine ⟨?_, outdatedListOf_analyzeProject, ?_⟩
  · intro features analysis
    unfold innovationScore
    cases h1 : sLookup features "innovation_score_novelty" <;>
      cases h2 : sLookup features "innovation_score_complexity" <;>
        cases h3 : sLookup features "innovation_score_automation" <;>
          simp only [h1, h2, h3, Option.getD_some, Option.getD_none] <;>
            split_ifs <;> congr 1 <;> ring
  · intro p t h
    have hsome := detectTechnologies_lexicon h
    rcases Option.isSome_iff_exists.1 hsome with ⟨v, hv⟩
    exact techDefinitions_not_outdated (t, v) (sLookup_mem hv)

set_option maxRecDepth 10000 in
/-- Witness for C8 at a concrete detected technology. -/
theorem innovation_score_formula_witness :
    isOutdatedTech "python" = false :=
  innovation_score_formula.2.2 projDeclared "python" (by decide)

/-! ### Absent-key lemmas for C10 -/

theorem sLookup_eq_none_of_forall {α : Type} {l : List (String × α)} {key : String}
    (h : ∀ kv ∈ l, kv.1 ≠ key) : sLookup l key = none := by
  induction l with
  | nil => rfl
  | cons kv rest ih =>
    rw [sLookup_cons_ne (h kv (List.mem_cons_self kv rest))]
    exact ih fun kv2 hm => h kv2 (List.mem_cons_of_mem kv hm)

theorem forall_ne_of_sLookup_none {α : Type} {l : List (String × α)} {key : String}
    (h : sLookup l key = none) : ∀ kv ∈ l, kv.1 ≠ key := by
  intro kv hkv heq
  have hm : (key, kv.2) ∈ l := by
    rw [← heq]
    exact hkv
  have := sLookup_isSome_of_mem hm
  rw [h] at this
  simp at this

theorem metaList_key_ne (k s : String)
    (hne : "metadata_list_".toList.take 2 ≠ s.toList.take 2)
    (hlen : 2 ≤ "metadata_list_".toList.length) :
    ("metadata_list_" ++ k ++ "_count") ≠ s := by
  intro h
  apply hne
  have h1 : "metadata_list_".toList ++ (k.toList ++ "_count".toList) = s.toList := by
    have h0 := congrArg String.toList h
    simpa [List.append_assoc] using h0
  calc "metadata_list_".toList.take 2
      = ("metadata_list_".toList ++ (k.toList ++ "_count".toList)).take 2 :=
        (List.take_append_of_le_length hlen).symm
    _ = s.toList.take 2 := by rw [h1]

theorem metaList_ne_security (k : String) :
    ("metadata_list_" ++ k ++ "_count") ≠ "security_issues" :=
  metaList_key_ne k _ (by decide) (by decide)

theorem metaList_ne_maintenance (k : String) :
    ("metadata_list_" ++ k ++ "_count") ≠ "maintenance_score" :=
  metaList_key_ne k _ (by decide) (by decide)


theorem sLookup_append_none {α : Type} {a b : List (String × α)} {key : String}
    (ha : sLookup a key = none) (hb : sLookup b key = none) :
    sLookup (a ++ b) key = none := by
  rw [sLookup_append, ha]
  exact hb

theorem sLookup_filterMap_none {α β : Type} (f : α → Option (String × β)) (l : List α)
    {key : String} (h : ∀ a b, f a = some b → b.1 ≠ key) :
    sLookup (l.filterMap f) key = none := by
  apply sLookup_eq_none_of_forall
  intro kv hkv
  rcases List.mem_filterMap.1 hkv with ⟨a, _, hfa⟩
  exact h a kv hfa

theorem sLookup_extractMetadataFeatures_none (sqrtM : ℚ → ℚ) (p : Project) (key : String)
    (h1 : "metadata_field_count" ≠ key) (h2 : "metadata_text_length" ≠ key)
    (h3 : "metadata_numeric_count" ≠ key) (h4 : "metadata_numeric_mean" ≠ key)
    (h5 : "metadata_numeric_std" ≠ key)
    (h6 : ∀ k, ("metadata_list_" ++ k ++ "_count") ≠ key) :
    sLookup (extractMetadataFeatures sqrtM p) key = none := by
  have hlf : ∀ (a : String × DVal) (b : String × ℚ),
      (match a.2 with
        | DVal.list l => some ("metadata_list_" ++ a.1 ++ "_count", ((l.length : ℚ)))
        | _ => none) = some b → b.1 ≠ key := by
    intro a b hfa
    obtain ⟨a1, a2⟩ := a
    cases a2 <;> dsimp only at hfa
    case list l =>
      injection hfa with h
      rw [← h]
      exact h6 a1
    all_goals exact Option.noConfusion hfa
  unfold extractMetadataFeatures
  dsimp only
  split
  · apply sLookup_append_none
    · apply sLookup_append_none
      · apply sLookup_append_none
        · rw [sLookup_cons_ne h1]
          rfl
        · exact sLookup_filterMap_none _ _ hlf
      · rw [sLookup_cons_ne h2, sLookup_cons_ne h3]
        rfl
    · rw [sLookup_cons_ne h4, sLookup_cons_ne h5]
      rfl
  · apply sLookup_append_none
    · apply sLookup_append_none
      · rw [sLookup_cons_ne h1]
        rfl
      · exact sLookup_filterMap_none _ _ hlf
    · rw [sLookup_cons_ne h2, sLookup_cons_ne h3]
      rfl

theorem sLookup_extractFeatures_none (sqrtM : ℚ → ℚ) (p : Project) (key : String)
    (ht : sLookup (extractTextFeatures p) key = none)
    (htech : sLookup (extractTechFeatures p) key = none)
    (hmd : sLookup (extractMetadataFeatures sqrtM p) key = none)
    (hkw : sLookup (extractKeywordFeatures p) key = none)
    (hcx : ∀ ex, sLookup (extractComplexityFeatures ex) key = none)
    (hdv : ∀ fs, sLookup (calcDerivedFeatures fs) key = none) :
    sLookup (extractFeatures sqrtM p) key = none := by
  unfold extractFeatures
  dsimp only
  rw [sLookup_mergeFeatures_of_not_mem (forall_ne_of_sLookup_none (hdv _))]
  rw [sLookup_mergeFeatures_of_not_mem (forall_ne_of_sLookup_none (hcx _))]
  rw [sLookup_mergeFeatures_of_not_mem (forall_ne_of_sLookup_none hkw)]
  rw [sLookup_mergeFeatures_of_not_mem (forall_ne_of_sLookup_none hmd)]
  rw [sLookup_mergeFeatures_of_not_mem (forall_ne_of_sLookup_none htech)]
  exact ht

theorem extractFeatures_no_risk_keys (sqrtM : ℚ → ℚ) (p : Project) :
    sLookup (extractFeatures sqrtM p) "security_issues" = none
    ∧ sLookup (extractFeatures sqrtM p) "maintenance_score" = none := by
  constructor
  · apply sLookup_extractFeatures_none
    · unfold extractTextFeatures
      simp [sLookup]
    · unfold extractTechFeatures
      simp [sLookup]
    · exact sLookup_extractMetadataFeatures_none _ _ _ (by decide) (by decide) (by decide)
        (by decide) (by decide) metaList_ne_security
    · unfold extractKeywordFeatures
      simp [sLookup]
    · intro ex
      unfold extractComplexityFeatures
      simp [sLookup]
    · intro fs
      unfold calcDerivedFeatures
      simp [sLookup]
  · apply sLookup_extractFeatures_none
    · unfold extractTextFeatures
      simp [sLookup]
    · unfold extractTechFeatures
      simp [sLookup]
    · exact sLookup_extractMetadataFeatures_none _ _ _ (by decide) (by decide) (by decide)
        (by decide) (by decide) metaList_ne_maintenance
    · unfold extractKeywordFeatures
      simp [sLookup]
    · intro ex
      unfold extractComplexityFeatures
      simp [sLookup]
    · intro fs
      unfold calcDerivedFeatures
      simp [sLookup]

theorem analyzeTechStack_no_risk_keys (cohF : List String → ℚ) (p : Project) :
    sLookup (analyzeTechStack cohF p) "outdated_technologies" = none
    ∧ sLookup (analyzeTechStack cohF p) "dependencies" = none := by
  constructor
  · unfold analyzeTechStack
    simp [sLookup]
  · unfold analyzeTechStack
    simp [sLookup]

theorem assessRisks_low (features : List (String × ℚ)) (techAnalysis : Dict)
    (hsec : sLookup features "security_issues" = none)
    (hmaint : sLookup features "maintenance_score" = none)
    (hout : sLookup techAnalysis "outdated_technologies" = none)
    (hdep : sLookup techAnalysis "dependencies" = none) :
    assessRisks features techAnalysis
      = [("level", .str "low"), ("factors", .list []),
         ("outdated_technologies", .list []), ("dependency_count", .num 0)] := by
  unfold assessRisks
  rw [show dGetList techAnalysis "outdated_technologies" = [] by
    unfold dGetList; rw [hout]]
  rw [show dGetList techAnalysis "dependencies" = [] by
    unfold dGetList; rw [hdep]]
  rw [hsec, hmaint]
  simp

theorem dGetDict_analyzeProject_risk (M : ExternalModels) (p : Project) :
    dGetDict (analyzeProject M p) "risk_assessment"
      = assessRisks (extractFeatures M.sqrtM p) (analyzeTechStack M.cohF p) := by
  unfold analyzeProject dGetDict
  simp [sLookup]

theorem riskLevelOf_analyzeProject (M : ExternalModels) (p : Project) :
    riskLevelOf (analyzeProject M p) = "low" := by
  unfold riskLevelOf
  rw [dGetDict_analyzeProject_risk]
  rw [assessRisks_low _ _ (extractFeatures_no_risk_keys M.sqrtM p).1
    (extractFeatures_no_risk_keys M.sqrtM p).2
    (analyzeTechStack_no_risk_keys M.cohF p).1
    (analyzeTechStack_no_risk_keys M.cohF p).2]
  rfl

theorem feasibilityScore_low (features : List (String × ℚ)) (analysis : Dict)
    (hlow : riskLevelOf analysis = "low") :
    feasibilityScore features analysis
      = clampScore (50 - ((sLookup features "overall_complexity").getD (1/2) - 1/2) * 30
          + (techMaturityOf analysis - 1/2) * 25
          + (match sLookup features "project_size" with
             | some size => if size = 3 then (-15 : ℚ) else if size = 2 then -5 else 0
             | none => 0)
          + 5
          + ((sLookup features "maintainability_score").getD 0) * 15) := by
  unfold feasibilityScore
  rw [hlow]
  cases h1 : sLookup features "overall_complexity" <;>
    cases h2 : sLookup features "project_size" <;>
      cases h3 : sLookup features "maintainability_score" <;>
        (simp [h1, h2, h3]
         try (split_ifs <;> congr 1 <;> ring))

/-- C10: on the non-exception path the risk assessment is always level
"low" with an empty factor list: the feature extractor never emits the
keys security_issues or maintenance_score (its literal keys differ and
its only dynamic keys have the shape metadata_list_..._count), the
tech-stack analysis dict never contains the keys outdated_technologies or
dependencies that assess_risks reads, every level-raising branch of
assess_risks is therefore unreachable, the pipeline risk level is never
"high" or "medium", and under level "low" the feasibility score takes
the +5 bonus rather than the -20 or -10 penalties. -/
theorem risk_level_always_low :
    (∀ (sqrtM : ℚ → ℚ) (p : Project),
       sLookup (extractFeatures sqrtM p) "security_issues" = none
       ∧ sLookup (extractFeatures sqrtM p) "maintenance_score" = none)
    ∧ (∀ (cohF : List String → ℚ) (p : Project),
       sLookup (analyzeTechStack cohF p) "outdated_technologies" = none
       ∧ sLookup (analyzeTechStack cohF p) "dependencies" = none)
    ∧ (∀ (features : List (String × ℚ)) (techAnalysis : Dict),
       sLookup features "security_issues" = none →
       sLookup features "maintenance_score" = none →
       sLookup techAnalysis "outdated_technologies" = none →
       sLookup techAnalysis "dependencies" = none →
       assessRisks features techAnalysis
         = [("level", .str "low"), ("factors", .list []),
            ("outdated_technologies", .list []), ("dependency_count", .num 0)])
    ∧ (∀ (M : ExternalModels) (p : Project),
       riskLevelOf (analyzeProject M p) = "low"
       ∧ riskLevelOf (analyzeProject M p) ≠ "high"
       ∧ riskLevelOf (analyzeProject M p) ≠ "medium")
    ∧ (∀ (features : List (String × ℚ)) (analysis : Dict),
       riskLevelOf analysis = "low" →
       feasibilityScore features analysis
         = clampScore (50 - ((sLookup features "overall_complexity").getD (1/2) - 1/2) * 30
             + (techMaturityOf analysis - 1/2) * 25
             + (match sLookup features "project_size" with
                | some size => if size = 3 then (-15 : ℚ) else if size = 2 then -5 else 0
                | none => 0)
             + 5
             + ((sLookup features "maintainability_score").getD 0) * 15)) := by
  refine ⟨extractFeatures_no_risk_keys, analyzeTechStack_no_risk_keys, assessRisks_low,
    ?_, feasibilityScore_low⟩
  intro M p
  have h := riskLevelOf_analyzeProject M p
  refine ⟨h, ?_, ?_⟩
  · rw [h]
    decide
  · rw [h]
    decide

/-- Witness for C10 at concrete inputs. -/
theorem risk_level_always_low_witness :
    (assessRisks [] [] = [("level", .str "low"), ("factors", .list []),
        ("outdated_technologies", .list []), ("dependency_count", .num 0)])
    ∧ (feasibilityScore []
        [("risk_assessment", DVal.dict [("level", DVal.str "low")])]
      = clampScore (50 - ((sLookup ([] : List (String × ℚ)) "overall_complexity").getD (1/2) - 1/2) * 30
          + (techMaturityOf [("risk_assessment", DVal.dict [("level", DVal.str "low")])] - 1/2) * 25
          + (match sLookup ([] : List (String × ℚ)) "project_size" with
             | some size => if size = 3 then (-15 : ℚ) else if size = 2 then -5 else 0
             | none => 0)
          + 5
          + ((sLookup ([] : List (String × ℚ)) "maintainability_score").getD 0) * 15)) :=
  ⟨risk_level_always_low.2.2.1 [] [] rfl rfl rfl rfl,
   risk_level_always_low.2.2.2.2 [] [("risk_assessment", DVal.dict [("level", DVal.str "low")])] rfl⟩
